import Mathlib

/-!
Verification of the A-LOG agent-observability core (`src/alog`): a shallow
embedding of the logger (`core.py`), the instrumentation wrapper and reasoning
extractor (`auto.py`), and the span bridge (`otel_exporter.py`), together with
theorems settling the specification's claims about them.

Modelling conventions:
* Python strings are `List Char` (`Str`); `str.strip()` is `pyStrip`.
* `uuid.uuid4()` is modelled by drawing from a strictly increasing counter held
  in the logger state: distinct draws are distinct, which is the property the
  code relies on.
* `time.time()` is modelled by a `Nat` clock in the logger state.
* JSONL persistence is modelled by the list of envelopes appended to each
  per-surface file (serialization round-trip is treated as the identity).
* Arbitrary Python objects appearing as payload values are `PyVal.obj`,
  carrying a type name and flags stating whether `str()` / `repr()` succeed.
-/

namespace AgentTrace

abbrev Str := List Char

/-- Python `str.strip()`: remove leading and trailing whitespace. -/
def pyStrip (s : Str) : Str :=
  List.rdropWhile Char.isWhitespace (s.dropWhile Char.isWhitespace)

/-- Index of the first occurrence of `m` as a contiguous substring of `s`
(the semantics of `re.search` for a literal pattern). -/
def findSub (m : Str) : Str → Option Nat
  | [] => if m.isPrefixOf ([] : Str) then some 0 else Option.none
  | c :: rest =>
    if m.isPrefixOf (c :: rest) then some 0
    else (findSub m rest).map (· + 1)

/-- `TRACE_START` marker from `auto.py`. -/
def TRACE_START : Str := "===REASONING_TRACE_START===".toList

/-- `TRACE_END` marker from `auto.py`. -/
def TRACE_END : Str := "===REASONING_TRACE_END===".toList

/-- `_extract_reasoning_trace` from `auto.py`, for string input.  The regex
`TRACE_START(.*?)TRACE_END` with `re.DOTALL` under `search` matches at the
first occurrence of the start marker that is eventually followed by the end
marker, pairing it with the first end marker occurring after it; since any end
marker following a later start marker also follows the first one, this is the
first start-marker occurrence paired with the first end marker after it. -/
def extractReasoningTrace (output : Str) : Str × Option Str :=
  match findSub TRACE_START output with
  | Option.none => (pyStrip output, Option.none)
  | some i =>
    let afterStart := output.drop (i + TRACE_START.length)
    match findSub TRACE_END afterStart with
    | Option.none => (pyStrip output, Option.none)
    | some k =>
      (pyStrip (output.take i ++ afterStart.drop (k + TRACE_END.length)),
       some (pyStrip (afterStart.take k)))

example :
    extractReasoningTrace
      "ANSWER===REASONING_TRACE_START===R===REASONING_TRACE_END===".toList
      = ("ANSWER".toList, some "R".toList) := by decide

example :
    extractReasoningTrace "  no markers here  ".toList
      = ("no markers here".toList, Option.none) := by decide

/-! ## Python values

Payload values flowing through `record` / `emit_span`.  `obj` stands for an
arbitrary Python object, abstracted to its type name plus flags recording
whether `str()` and `repr()` succeed on it. -/

inductive PyVal where
  | none
  | bool (b : Bool)
  | int (n : Int)
  | float (x : Nat)
  | str (s : Str)
  | list (elems : List PyVal)
  | dict (entries : List (Str × PyVal))
  | obj (typeName : Str) (strOk : Bool) (reprOk : Bool)

mutual

/-- Python `repr(v)`; `Option.none` models the call raising. -/
def pyRepr : PyVal → Option Str
  | .none => some "None".toList
  | .bool true => some "True".toList
  | .bool false => some "False".toList
  | .int n => some (toString n).toList
  | .float x => some (toString x).toList
  | .str s => some ('\x27' :: s ++ ['\x27'])
  | .list es => (pyReprSeq es).map (fun parts => '[' :: parts ++ [']'])
  | .dict es => (pyReprEntries es).map (fun parts => '\x7b' :: parts ++ ['\x7d'])
  | .obj t _ rOk => if rOk then some ('<' :: t ++ ['>']) else Option.none

/-- `repr` of the comma-separated elements of a sequence. -/
def pyReprSeq : List PyVal → Option Str
  | [] => some []
  | [v] => pyRepr v
  | v :: vs =>
    match pyRepr v, pyReprSeq vs with
    | some r, some rest => some (r ++ ',' :: ' ' :: rest)
    | _, _ => Option.none

/-- `repr` of the comma-separated entries of a dict. -/
def pyReprEntries : List (Str × PyVal) → Option Str
  | [] => some []
  | [(k, v)] => (pyRepr v).map (fun r => k ++ ':' :: ' ' :: r)
  | (k, v) :: es =>
    match pyRepr v, pyReprEntries es with
    | some r, some rest => some (k ++ ':' :: ' ' :: r ++ ',' :: ' ' :: rest)
    | _, _ => Option.none

end

/-- Python `str(v)`; `Option.none` models the call raising.  For containers
this renders their elements via `repr`, as Python does. -/
def pyStr : PyVal → Option Str
  | .str s => some s
  | .obj t sOk _ => if sOk then some ('<' :: t ++ ['>']) else Option.none
  | v => pyRepr v

mutual

/-- `json.dumps(v)`; `Option.none` models a `TypeError` for values the JSON
encoder cannot represent. -/
def jsonDumps : PyVal → Option Str
  | .none => some "null".toList
  | .bool true => some "true".toList
  | .bool false => some "false".toList
  | .int n => some (toString n).toList
  | .float x => some (toString x).toList
  | .str s => some ('"' :: s ++ ['"'])
  | .list es => (jsonSeq es).map (fun parts => '[' :: parts ++ [']'])
  | .dict es => (jsonEntries es).map (fun parts => '\x7b' :: parts ++ ['\x7d'])
  | .obj _ _ _ => Option.none

/-- JSON rendering of the elements of a list. -/
def jsonSeq : List PyVal → Option Str
  | [] => some []
  | [v] => jsonDumps v
  | v :: vs =>
    match jsonDumps v, jsonSeq vs with
    | some r, some rest => some (r ++ ',' :: ' ' :: rest)
    | _, _ => Option.none

/-- JSON rendering of the entries of a dict. -/
def jsonEntries : List (Str × PyVal) → Option Str
  | [] => some []
  | [(k, v)] => (jsonDumps v).map (fun r => '"' :: k ++ '"' :: ':' :: ' ' :: r)
  | (k, v) :: es =>
    match jsonDumps v, jsonEntries es with
    | some r, some rest =>
      some ('"' :: k ++ '"' :: ':' :: ' ' :: r ++ ',' :: ' ' :: rest)
    | _, _ => Option.none

end

/-- Python truthiness. -/
def pyTruthy : PyVal → Bool
  | .none => false
  | .bool b => b
  | .int n => n != 0
  | .float x => x != 0
  | .str s => !s.isEmpty
  | .list es => !es.isEmpty
  | .dict es => !es.isEmpty
  | .obj _ _ _ => true

/-- Python `type(v).__name__`. -/
def pyTypeName : PyVal → Str
  | .none => "NoneType".toList
  | .bool _ => "bool".toList
  | .int _ => "int".toList
  | .float _ => "float".toList
  | .str _ => "str".toList
  | .list _ => "list".toList
  | .dict _ => "dict".toList
  | .obj t _ _ => t

/-! ## Span bridge (`otel_exporter.py`, `OTelExporter.emit_span`) -/

/-- An OpenTelemetry span attribute value (the backend accepts scalars). -/
inductive AttrVal where
  | str (s : Str)
  | int (n : Int)
  | float (x : Nat)
  | bool (b : Bool)

/-- One emitted span. -/
structure Span where
  name : Str
  attributes : List (Str × AttrVal)

/-- The first serialization attempted for a non-scalar attribute value:
`json.dumps` for dicts, `str` for lists, tuples and everything else. -/
def primarySerialize (v : PyVal) : Option Str :=
  match v with
  | .dict _ => jsonDumps v
  | _ => pyStr v

/-- The per-attribute body of `emit_span`'s loop: scalars are set directly,
lists and tuples via `str(value)`, dicts via `json.dumps(value)`, everything
else via `str(value)`; on an exception, `repr(value)` is tried, and if that
also raises the attribute degrades to the fixed error-marker string.  `None`
values are skipped (`Option.none` result). -/
def serializeAttr (key : Str) (v : PyVal) : Option (Str × AttrVal) :=
  match v with
  | .none => Option.none
  | .str s => some (key, .str s)
  | .int n => some (key, .int n)
  | .float x => some (key, .float x)
  | .bool b => some (key, .bool b)
  | _ =>
    match primarySerialize v with
    | some s => some (key, .str s)
    | Option.none =>
      match pyRepr v with
      | some r => some (key, .str r)
      | Option.none =>
        some (key, .str ("<error serializing value: ".toList
            ++ pyTypeName v ++ ['>']))

/-- `OTelExporter.emit_span`: with no tracer configured it is a no-op;
otherwise it emits one span named `"{agent}.{surface}"` whose attributes are
`surface`, `agent`, and the serialization of every non-`None` event entry. -/
def emitSpan (tracerReady : Bool) (surface agent : Str)
    (event : List (Str × PyVal)) : Option Span :=
  if !tracerReady then Option.none
  else some
    { name := agent ++ '.' :: surface
      attributes :=
        ("surface".toList, .str surface) :: ("agent".toList, .str agent)
          :: event.filterMap (fun kv => serializeAttr kv.1 kv.2) }

/-! ## Logger (`core.py`, `ALogger`) -/

/-- An A-LOG event envelope (the `log_entry` built by `ALogger.record`).
`id`, `trace_id` and `span_id` are UUIDs, modelled as draws from the logger's
fresh-identifier counter; `timestamp` is a reading of the modelled clock. -/
structure Envelope where
  id : Nat
  timestamp : Nat
  agent : Str
  surface : Str
  level : Str
  trace_id : Nat
  span_id : Nat
  event : List (Str × PyVal)

/-- State of one `ALogger` instance.  Per-surface JSONL files are modelled by
the lists of envelopes appended to them (`contextual_file` is `Option.none`
when `save_contextual_to_file` is off, mirroring the `None` path in the code);
`console` collects `(severity, message)` pairs passed to the console logger;
`spans` collects spans emitted through the exporter; `next_uuid` and `clock`
drive identifier and timestamp generation. -/
structure ALoggerState where
  enable_otel : Bool
  tracerReady : Bool
  current_trace_id : Option Nat
  operational_file : List Envelope
  cognitive_file : List Envelope
  contextual_file : Option (List Envelope)
  console : List (Str × Str)
  spans : List Span
  next_uuid : Nat
  clock : Nat

/-- `ALogger.__init__` over a fresh output directory: empty sinks, no retained
trace id. -/
def initLogger (enable_otel tracerReady save_contextual_to_file : Bool) :
    ALoggerState :=
  { enable_otel := enable_otel
    tracerReady := tracerReady
    current_trace_id := Option.none
    operational_file := []
    cognitive_file := []
    contextual_file := if save_contextual_to_file then some [] else Option.none
    console := []
    spans := []
    next_uuid := 0
    clock := 0 }

/-- The three JSONL sinks. -/
inductive Sink where
  | operational
  | cognitive
  | contextual
deriving DecidableEq

/-- Which sink `ALogger.record`'s if/elif routing chain sends a surface
string to; `Option.none` for a contextual event when no contextual file is
configured (the write is skipped).  Unknown surfaces default to the
operational sink. -/
def sinkFor (st : ALoggerState) (surface : Str) : Option Sink :=
  if surface = "operational".toList then some .operational
  else if surface = "cognitive".toList then some .cognitive
  else if surface = "contextual".toList then
    if st.contextual_file.isSome then some .contextual else Option.none
  else some .operational

/-- `ALogger._write_to_file`: append the envelope to the sink, or — when the
underlying I/O raises, which the caller signals through `ioError` — catch the
exception, log `"Failed to write to ..."` through `console_logger.error`, and
drop the envelope. -/
def writeToFile (st : ALoggerState) (sink : Sink) (entry : Envelope)
    (ioError : Option Str) : ALoggerState :=
  match ioError with
  | Option.none =>
    match sink with
    | .operational => { st with operational_file := st.operational_file ++ [entry] }
    | .cognitive => { st with cognitive_file := st.cognitive_file ++ [entry] }
    | .contextual =>
      { st with contextual_file := st.contextual_file.map (· ++ [entry]) }
  | some e =>
    { st with console := st.console
        ++ [("ERROR".toList, "Failed to write to ".toList
              ++ sinkName sink ++ ':' :: ' ' :: e)] }
where
  sinkName : Sink → Str
    | .operational => "operational.jsonl".toList
    | .cognitive => "cognitive.jsonl".toList
    | .contextual => "contextual.jsonl".toList

/-- The identifier-generation prelude of `ALogger.record`: resolve the
trace id (`trace_id = self.current_trace_id or str(uuid.uuid4())`, retaining
it) and the span id (fresh unless supplied).  Returns the updated state with
the resolved `(trace_id, span_id)` pair. -/
def allocIds (st : ALoggerState) (trace_id span_id : Option Nat) :
    ALoggerState × Nat × Nat :=
  let p : Nat × ALoggerState :=
    match trace_id with
    | some t => (t, st)
    | Option.none =>
      match st.current_trace_id with
      | some t => (t, { st with current_trace_id := some t })
      | Option.none =>
        (st.next_uuid, { st with current_trace_id := some st.next_uuid
                                 next_uuid := st.next_uuid + 1 })
  let q : Nat × ALoggerState :=
    match span_id with
    | some s => (s, p.2)
    | Option.none => (p.2.next_uuid, { p.2 with next_uuid := p.2.next_uuid + 1 })
  (q.2, p.1, q.1)

/-- The file-routing step of `ALogger.record`: the if/elif chain sending the
envelope to its surface's file (contextual only when configured; unknown
surfaces default to operational). -/
def routeWrite (st : ALoggerState) (surface : Str) (entry : Envelope)
    (ioError : Option Str) : ALoggerState :=
  if surface = "operational".toList then
    writeToFile st .operational entry ioError
  else if surface = "cognitive".toList then
    writeToFile st .cognitive entry ioError
  else if surface = "contextual".toList then
    if st.contextual_file.isSome then writeToFile st .contextual entry ioError
    else st
  else writeToFile st .operational entry ioError

/-- The OpenTelemetry step of `ALogger.record`: when enabled, emit one span
for the envelope.  (An exporter failure would be caught and logged at
WARNING; the modelled exporter is total, so that branch never fires.) -/
def otelStage (st : ALoggerState) (surface agent : Str)
    (event : List (Str × PyVal)) : ALoggerState :=
  if st.enable_otel then
    { st with spans := st.spans
        ++ (emitSpan st.tracerReady surface agent event).toList }
  else st

/-- The console step of `ALogger.record`: operational events with a
start/complete/error status are echoed to the console logger at INFO. -/
def consoleStage (st : ALoggerState) (surface agent : Str)
    (event : List (Str × PyVal)) : ALoggerState :=
  let statusInteresting : Bool :=
    match (event.find? (fun kv => kv.1 = "status".toList)).map Prod.snd with
    | some (.str s) => s == "start".toList || s == "complete".toList
        || s == "error".toList
    | _ => false
  if surface == "operational".toList && statusInteresting then
    { st with console := st.console
        ++ [("INFO".toList,
              agent ++ '.' :: eventMethod ++ ' ' :: '-' :: ' ' :: eventStatus)] }
  else st
where
  eventMethod : Str :=
    match (event.find? (fun kv => kv.1 = "method".toList)).map Prod.snd with
    | some v => (pyStr v).getD "unknown".toList
    | Option.none => "unknown".toList
  eventStatus : Str :=
    match (event.find? (fun kv => kv.1 = "status".toList)).map Prod.snd with
    | some v => (pyStr v).getD "unknown".toList
    | Option.none => "unknown".toList

/-- `ALogger.record`.  Returns the new state together with the envelope it
built.  `ioError = some e` models the sink append raising an I/O exception
with message `e`. -/
def record (st : ALoggerState) (surface agent : Str)
    (event : List (Str × PyVal)) (level : Str)
    (trace_id span_id : Option Nat) (ioError : Option Str) :
    ALoggerState × Envelope :=
  let a := allocIds st trace_id span_id
  let st := a.1
  let entry : Envelope :=
    { id := st.next_uuid
      timestamp := st.clock
      agent := agent
      surface := surface
      level := level
      trace_id := a.2.1
      span_id := a.2.2
      event := event }
  let st := { st with next_uuid := st.next_uuid + 1, clock := st.clock + 1 }
  let st := routeWrite st surface entry ioError
  let st := otelStage st surface agent event
  let st := consoleStage st surface agent event
  (st, entry)

/-- Lift an optional string field to a `PyVal` (`None` when absent). -/
def optStr : Option Str → PyVal
  | some s => .str s
  | Option.none => .none

/-- Lift an optional numeric field to a `PyVal`. -/
def optFloat : Option Nat → PyVal
  | some x => .float x
  | Option.none => .none

/-- Lift an optional integer field to a `PyVal`. -/
def optInt : Option Int → PyVal
  | some n => .int n
  | Option.none => .none

/-- Lift an optional dict field to a `PyVal`. -/
def optDict : Option (List (Str × PyVal)) → PyVal
  | some d => .dict d
  | Option.none => .none

/-- `ALogger.record_operational`: build the operational payload and delegate
to `record` (`metadata or {}` defaults an absent metadata map to `{}`). -/
def record_operational (st : ALoggerState) (agent method status : Str)
    (duration_sec : Option Nat) (tool_name : Option Str)
    (tool_parameters : Option (List (Str × PyVal)))
    (result_summary : Option Str) (error : Option Str)
    (token_usage : Option (List (Str × PyVal))) (latency_ms : Option Int)
    (caller : Option Str) (metadata : Option (List (Str × PyVal)))
    (level : Str) (trace_id span_id : Option Nat) (ioError : Option Str) :
    ALoggerState × Envelope :=
  record st "operational".toList agent
    [("method".toList, .str method),
     ("status".toList, .str status),
     ("duration_sec".toList, optFloat duration_sec),
     ("tool_name".toList, optStr tool_name),
     ("tool_parameters".toList, optDict tool_parameters),
     ("result_summary".toList, optStr result_summary),
     ("error".toList, optStr error),
     ("token_usage".toList, optDict token_usage),
     ("latency_ms".toList, optInt latency_ms),
     ("caller".toList, optStr caller),
     ("metadata".toList, .dict (metadata.getD []))]
    level trace_id span_id ioError

/-- The thought-truncation step of `record_cognitive`: a truthy thought
longer than 2000 characters is cut to 2000 characters plus `"..."`. -/
def truncThought (t : Str) : Str :=
  if !t.isEmpty && decide (2000 < t.length) then t.take 2000 ++ "...".toList
  else t

/-- `ALogger.record_cognitive`: thoughts longer than 2000 characters are
truncated with a `"..."` marker, then the cognitive payload is built and
delegated to `record`. -/
def record_cognitive (st : ALoggerState) (agent : Str) (thought : Option Str)
    (reasoning_step : Option Int) (plan reflection : Option Str)
    (confidence : Option Nat) (goal model : Option Str)
    (token_count : Option Int) (prompt_excerpt completion_excerpt : Option Str)
    (level : Str) (trace_id span_id : Option Nat) (ioError : Option Str) :
    ALoggerState × Envelope :=
  let thought : Option Str := thought.map truncThought
  record st "cognitive".toList agent
    [("reasoning_step".toList, optInt reasoning_step),
     ("thought".toList, optStr thought),
     ("plan".toList, optStr plan),
     ("reflection".toList, optStr reflection),
     ("confidence".toList, optFloat confidence),
     ("goal".toList, optStr goal),
     ("model".toList, optStr model),
     ("token_count".toList, optInt token_count),
     ("prompt_excerpt".toList, optStr prompt_excerpt),
     ("completion_excerpt".toList, optStr completion_excerpt)]
    level trace_id span_id ioError

/-- `ALogger.get_logs`: re-read the configured sinks; with no surface given,
all configured surfaces are returned in sink order (operational, cognitive,
contextual), not globally re-sorted. -/
def get_logs (st : ALoggerState) (surface : Option Str) : List Envelope :=
  (if surface = Option.none ∨ surface = some "operational".toList then
    st.operational_file
   else [])
    ++ (if surface = Option.none ∨ surface = some "cognitive".toList then
      st.cognitive_file
    else [])
    ++ (if (surface = Option.none ∨ surface = some "contextual".toList) then
      (st.contextual_file.getD [])
    else [])

/-- Modelled from the spec: the repository exposes no explicit reset
operation on the trace context (`current_trace_id` is assigned only in
`ALogger.__init__` and `ALogger.record`); §4.4 describes "an explicit reset"
after which "a fresh identifier is generated and retained".  Following the
spec's words, a reset clears the retained correlation identifier, returning
the trace context to its post-construction state. -/
def resetTrace (st : ALoggerState) : ALoggerState :=
  { st with current_trace_id := Option.none }

/-! ## Instrumentation wrapper (`auto.py`) -/

/-- An attribute of a Python object, as seen by `instrument_agent`: either a
callable (a method; `wrapped` marks the logging replacement installed by
`_create_logged_wrapper`) or a plain non-callable value. -/
inductive PyAttr where
  | callable (wrapped : Bool)
  | plain
deriving DecidableEq

/-- A Python object: its attribute table (standing for `dir(agent)` together
with `getattr`). -/
structure PyObj where
  attrs : List (Str × PyAttr)
deriving DecidableEq

/-- `getattr` + `callable` check. -/
def PyObj.callableAttr (agent : PyObj) (name : Str) : Bool :=
  match agent.attrs.find? (fun kv => kv.1 = name) with
  | some (_, .callable _) => true
  | _ => false

/-- `instrument_agent`: raises `RuntimeError` when the global logger is not
initialized; otherwise wraps either the explicitly listed methods that are
present and callable, or (with no list) every public callable; with no
eligible method it returns the target unchanged. -/
def instrument_agent (loggerInitialized : Bool) (agent : PyObj) (_name : Str)
    (methods : Option (List Str)) : Except Str PyObj :=
  if !loggerInitialized then
    .error "A-LOG not initialized. Call init() first.".toList
  else
    let target_methods : List Str :=
      match methods with
      | Option.none =>
        (agent.attrs.filter
          (fun kv => kv.1.head? != some '_'
            && (match kv.2 with | .callable _ => true | .plain => false))).map
          Prod.fst
      | some ms => ms.filter (fun m => agent.callableAttr m)
    if target_methods.isEmpty then .ok agent
    else
      .ok { attrs := agent.attrs.map (fun kv =>
        if target_methods.contains kv.1 then (kv.1, .callable true) else kv) }

/-- Outcome of calling the original method inside the wrapper: a returned
value or a raised exception (type name and message). -/
inductive CallResult where
  | value (v : PyVal)
  | raises (excType excMsg : Str)

/-- `logged_wrapper` from `_create_logged_wrapper`.  `behavior` is what the
original method does when invoked, `execTime` how far the clock advances
while it runs, and `io₁ io₂ io₃` the I/O outcomes of the (at most three)
sink appends.  Returns the post-call logger state and the wrapper's own
outcome: the (possibly rewritten) return value, or the re-raised exception. -/
def loggedWrapper (st : ALoggerState) (agent_name method_name : Str)
    (args_count : Nat) (kwargs_keys : List Str) (behavior : CallResult)
    (execTime : Nat) (io₁ io₂ io₃ : Option Str) :
    ALoggerState × CallResult :=
  let start_time := st.clock
  -- start event: argument shape only
  let p₁ := record_operational st agent_name method_name "start".toList
    Option.none Option.none Option.none Option.none Option.none Option.none
    Option.none Option.none
    (some [("args_count".toList, .int args_count),
           ("kwargs_keys".toList, .list (kwargs_keys.map .str))])
    "INFO".toList Option.none Option.none io₁
  -- the original method runs
  let st := { p₁.1 with clock := p₁.1.clock + execTime }
  match behavior with
  | .value result =>
    let duration := st.clock - start_time
    match pyStr result with
    | Option.none =>
      -- `str(result)` raising inside the `try` is caught by the `except`
      -- branch like any other exception; the exception raised by a failing
      -- `__str__` is modelled as a bare `TypeError`.
      errorPath st duration "TypeError".toList [] io₂
    | some rendered =>
      let result_summary : Str :=
        if pyTruthy result && decide (100 < rendered.length) then
          rendered.take 100 ++ "...".toList
        else rendered
      let result_type : Str :=
        match result with
        | .none => "None".toList
        | v => pyTypeName v
      let p₂ := record_operational st agent_name method_name
        "complete".toList (some duration) Option.none Option.none
        (some result_summary) Option.none Option.none Option.none Option.none
        (some [("result_type".toList, .str result_type)])
        "INFO".toList Option.none Option.none io₂
      match result with
      | .str s =>
        let ex := extractReasoningTrace s
        match ex.2 with
        | some r =>
          if !r.isEmpty then
            -- reasoning found: log it separately and rewrite the result
            let p₃ := record_cognitive p₂.1 agent_name (some r) Option.none
              Option.none Option.none Option.none
              (some ("Execute ".toList ++ method_name))
              (some "agent_method".toList) Option.none Option.none Option.none
              "INFO".toList Option.none Option.none io₃
            (p₃.1, .value (.str ex.1))
          else (p₂.1, .value (.str s))
        | Option.none => (p₂.1, .value (.str s))
      | v => (p₂.1, .value v)
  | .raises excType excMsg =>
    let duration := st.clock - start_time
    errorPath st duration excType excMsg io₂
where
  errorPath (st : ALoggerState) (duration : Nat) (excType excMsg : Str)
      (io₂ : Option Str) : ALoggerState × CallResult :=
    let error_message := excType ++ ':' :: ' ' :: excMsg
    let p := record_operational st agent_name method_name
      "error".toList (some duration) Option.none Option.none Option.none
      (some error_message) Option.none Option.none Option.none
      (some [("error_type".toList, .str excType),
             ("args_count".toList, .int args_count),
             ("kwargs_keys".toList, .list (kwargs_keys.map .str))])
      "ERROR".toList Option.none Option.none io₂
    (p.1, .raises excType excMsg)

/-! ## Sessions of `record` calls (for the read-back contract) -/

/-- The arguments of one `record` call in a session. -/
structure RecordCall where
  surface : Str
  agent : Str
  event : List (Str × PyVal)
  level : Str
  trace_id : Option Nat
  span_id : Option Nat

/-- Run a sequence of `record` calls (a single-writer session whose sink
appends all succeed), collecting the envelopes they write. -/
def runRecords : ALoggerState → List RecordCall → ALoggerState × List Envelope
  | st, [] => (st, [])
  | st, c :: cs =>
    let p := record st c.surface c.agent c.event c.level c.trace_id c.span_id
      Option.none
    let q := runRecords p.1 cs
    (q.1, p.2 :: q.2)

/-- Is this envelope routed to the operational file?  (`record` sends both
the `operational` surface and every unknown surface there.) -/
def routedOperational (e : Envelope) : Bool :=
  e.surface != "cognitive".toList && e.surface != "contextual".toList

/-- Is this envelope routed to the cognitive file? -/
def routedCognitive (e : Envelope) : Bool :=
  e.surface == "cognitive".toList

/-- Is this envelope routed to the contextual file (when one is configured)? -/
def routedContextual (e : Envelope) : Bool :=
  e.surface == "contextual".toList

/-- Look up a field of an envelope's event payload. -/
def eventField (e : Envelope) (k : Str) : Option PyVal :=
  (e.event.find? (fun kv => kv.1 = k)).map Prod.snd

/-- Does this envelope's event carry the given `status` string? -/
def statusIs (s : Str) (e : Envelope) : Bool :=
  match eventField e "status".toList with
  | some (.str s') => s' == s
  | _ => false

/-- `m` occurs as a contiguous substring of `s` at index `i`. -/
def occursAt (m s : Str) (i : Nat) : Prop :=
  m <+: s.drop i

instance (m s : Str) (i : Nat) : Decidable (occursAt m s i) := by
  unfold occursAt; infer_instance

/-! ## Lemmas: substring search and stripping -/

theorem isPrefixOf_iff_isPrefix {m l : Str} :
    m.isPrefixOf l = true ↔ m <+: l :=
  List.isPrefixOf_iff_prefix

theorem rdropWhile_isPrefix (p : Char → Bool) (l : List Char) :
    List.rdropWhile p l <+: l :=
  List.rdropWhile_prefix p l

theorem findSub_eq_none (m s : Str) :
    findSub m s = Option.none ↔ ∀ i, ¬ m <+: s.drop i := by
  induction s with
  | nil =>
    simp only [findSub, List.drop_nil]
    by_cases hb : m.isPrefixOf ([] : Str)
    · rw [if_pos hb]
      simp only [reduceCtorEq, false_iff, not_forall]
      exact ⟨0, not_not_intro (isPrefixOf_iff_isPrefix.mp hb)⟩
    · rw [if_neg hb]
      simp only [true_iff]
      exact fun _ hp => hb (isPrefixOf_iff_isPrefix.mpr hp)
  | cons c r ih =>
    simp only [findSub]
    by_cases hb : m.isPrefixOf (c :: r)
    · rw [if_pos hb]
      simp only [reduceCtorEq, false_iff, not_forall]
      exact ⟨0, not_not_intro (isPrefixOf_iff_isPrefix.mp hb)⟩
    · rw [if_neg hb, Option.map_eq_none', ih]
      constructor
      · intro h i
        cases i with
        | zero =>
          exact fun hp => hb (isPrefixOf_iff_isPrefix.mpr hp)
        | succ j => simpa using h j
      · intro h j
        simpa using h (j + 1)

theorem findSub_eq_some (m s : Str) (i : Nat) (h : findSub m s = some i) :
    m <+: s.drop i ∧ ∀ j, j < i → ¬ m <+: s.drop j := by
  induction s generalizing i with
  | nil =>
    simp only [findSub] at h
    by_cases hb : m.isPrefixOf ([] : Str)
    · rw [if_pos hb] at h
      cases h
      exact ⟨isPrefixOf_iff_isPrefix.mp hb,
        fun j hj => absurd hj (Nat.not_lt_zero j)⟩
    · rw [if_neg hb] at h
      cases h
  | cons c r ih =>
    simp only [findSub] at h
    by_cases hb : m.isPrefixOf (c :: r)
    · rw [if_pos hb] at h
      cases h
      exact ⟨isPrefixOf_iff_isPrefix.mp hb,
        fun j hj => absurd hj (Nat.not_lt_zero j)⟩
    · rw [if_neg hb, Option.map_eq_some'] at h
      obtain ⟨i', hi', rfl⟩ := h
      obtain ⟨h1, h2⟩ := ih i' hi'
      refine ⟨by simpa using h1, ?_⟩
      intro j hj
      cases j with
      | zero => exact fun hp => hb (isPrefixOf_iff_isPrefix.mpr hp)
      | succ j' => simpa using h2 j' (by omega)

theorem findSub_of_first (m s : Str) (i : Nat) (h1 : m <+: s.drop i)
    (h2 : ∀ j, j < i → ¬ m <+: s.drop j) : findSub m s = some i := by
  cases hf : findSub m s with
  | none => exact absurd h1 ((findSub_eq_none m s).mp hf i)
  | some i₀ =>
    obtain ⟨g1, g2⟩ := findSub_eq_some m s i₀ hf
    rcases Nat.lt_trichotomy i₀ i with hlt | heq | hgt
    · exact absurd g1 (h2 i₀ hlt)
    · rw [heq]
    · exact absurd h1 (g2 i hgt)

theorem dropWhile_self_of_isPrefixLeft (p : Char → Bool) (t u : Str)
    (htu : t <+: u) (hu : u.dropWhile p = u) : t.dropWhile p = t := by
  cases t with
  | nil => simp
  | cons a t' =>
    obtain ⟨k, hk⟩ := htu
    by_cases hpa : p a
    · exfalso
      rw [← hk, List.cons_append, List.dropWhile_cons_of_pos hpa] at hu
      have hlen := congrArg List.length hu
      have hle : ((t' ++ k).dropWhile p).length ≤ (t' ++ k).length :=
        (List.dropWhile_suffix p).length_le
      simp only [List.length_cons] at hlen
      omega
    · exact List.dropWhile_cons_of_neg hpa

theorem pyStrip_dropWhile (s : Str) :
    (pyStrip s).dropWhile Char.isWhitespace = pyStrip s := by
  apply dropWhile_self_of_isPrefixLeft Char.isWhitespace (pyStrip s)
    (s.dropWhile Char.isWhitespace)
  · exact rdropWhile_isPrefix Char.isWhitespace (s.dropWhile Char.isWhitespace)
  · exact List.dropWhile_idempotent Char.isWhitespace s

theorem pyStrip_idem (s : Str) : pyStrip (pyStrip s) = pyStrip s := by
  show List.rdropWhile Char.isWhitespace
    ((pyStrip s).dropWhile Char.isWhitespace) = pyStrip s
  rw [pyStrip_dropWhile]
  show List.rdropWhile Char.isWhitespace
    (List.rdropWhile Char.isWhitespace (s.dropWhile Char.isWhitespace))
      = pyStrip s
  rw [List.rdropWhile_idempotent]
  rfl

theorem pyStrip_isInfix (s : Str) : pyStrip s <:+: s :=
  List.infix_iff_prefix_suffix.mpr
    ⟨s.dropWhile Char.isWhitespace,
     rdropWhile_isPrefix Char.isWhitespace (s.dropWhile Char.isWhitespace),
     List.dropWhile_suffix Char.isWhitespace⟩

theorem occursAt_isInfix {m t : Str} {i : Nat} (h : occursAt m t i) :
    m <:+: t :=
  List.infix_iff_prefix_suffix.mpr ⟨t.drop i, h, List.drop_suffix i t⟩

theorem exists_occursAt_of_isInfix {m t : Str} (h : m <:+: t) :
    ∃ i, occursAt m t i := by
  obtain ⟨a, b, hab⟩ := h
  refine ⟨a.length, ?_⟩
  unfold occursAt
  rw [← hab, List.append_assoc, List.drop_left]
  exact List.prefix_append m b

theorem occursAt_append {m t : Str} (a b : Str) {i : Nat} (hm : m ≠ [])
    (h : occursAt m t i) : occursAt m (a ++ t ++ b) (a.length + i) := by
  unfold occursAt at h ⊢
  have hi : i ≤ t.length := by
    by_contra hgt
    rw [List.drop_eq_nil_of_le (by omega)] at h
    exact hm (List.prefix_nil.mp h)
  rw [List.append_assoc, List.drop_append, List.drop_append_of_le_length hi]
  exact h.trans (List.prefix_append (t.drop i) b)

theorem occursAt_mono_isInfix {m t s : Str} {i : Nat} (hm : m ≠ [])
    (hts : t <:+: s) (h : occursAt m t i) : ∃ j, occursAt m s j := by
  obtain ⟨a, b, hab⟩ := hts
  exact ⟨a.length + i, hab ▸ occursAt_append a b hm h⟩

theorem trace_start_ne_nil : TRACE_START ≠ [] := by decide

theorem trace_end_ne_nil : TRACE_END ≠ [] := by decide

theorem occursAt_le_length {m s : Str} {i : Nat} (hm : m ≠ [])
    (h : occursAt m s i) : i ≤ s.length := by
  by_contra hgt
  unfold occursAt at h
  rw [List.drop_eq_nil_of_le (by omega)] at h
  exact hm (List.prefix_nil.mp h)

/-- **C4**: for every string input to the reasoning extractor, if no
start-marker/end-marker pair occurs (an occurrence of `TRACE_START` followed,
at or beyond its end, by an occurrence of `TRACE_END` — matching across line
breaks, since `occursAt` is position-based), the extractor returns the
trimmed original text and no reasoning; and when a pair occurs, with `i` the
first start-marker occurrence and `j` the first end-marker occurrence at or
beyond `i + TRACE_START.length`, the reasoning is the trimmed substring
strictly between the markers and the main text is the trimmed concatenation
of everything before the start marker and everything after the end marker,
leaving any later marker pairs embedded in it verbatim. -/
theorem extractReasoningTrace_spec (s : Str) :
    ((∀ i, i ≤ s.length → ∀ j, j ≤ s.length →
        ¬(occursAt TRACE_START s i ∧ occursAt TRACE_END s j ∧
          i + TRACE_START.length ≤ j)) →
      extractReasoningTrace s = (pyStrip s, Option.none)) ∧
    (∀ i j, occursAt TRACE_START s i →
      (∀ i', i' < i → ¬ occursAt TRACE_START s i') →
      occursAt TRACE_END s j → i + TRACE_START.length ≤ j →
      (∀ j', i + TRACE_START.length ≤ j' → j' < j →
        ¬ occursAt TRACE_END s j') →
      extractReasoningTrace s =
        (pyStrip (s.take i ++ s.drop (j + TRACE_END.length)),
         some (pyStrip ((s.drop (i + TRACE_START.length)).take
            (j - (i + TRACE_START.length)))))) := by
  constructor
  · intro hno
    cases hfS : findSub TRACE_START s with
    | none => simp [extractReasoningTrace, hfS]
    | some i =>
      cases hfE : findSub TRACE_END (s.drop (i + TRACE_START.length)) with
      | none => simp [extractReasoningTrace, hfS, hfE]
      | some k =>
        exfalso
        obtain ⟨hS, _⟩ := findSub_eq_some _ _ _ hfS
        obtain ⟨hE, _⟩ := findSub_eq_some _ _ _ hfE
        have hE' : occursAt TRACE_END s (i + TRACE_START.length + k) := by
          unfold occursAt
          rw [← List.drop_drop]
          exact hE
        exact hno i (occursAt_le_length trace_start_ne_nil hS)
          (i + TRACE_START.length + k)
          (occursAt_le_length trace_end_ne_nil hE')
          ⟨hS, hE', by omega⟩
  · intro i j hSi hSmin hEj hle hEmin
    have hfS : findSub TRACE_START s = some i :=
      findSub_of_first _ _ _ hSi hSmin
    have hEk : TRACE_END <+:
        (s.drop (i + TRACE_START.length)).drop (j - (i + TRACE_START.length)) := by
      rw [List.drop_drop]
      have heq : i + TRACE_START.length + (j - (i + TRACE_START.length)) = j := by
        omega
      rw [heq]
      exact hEj
    have hEminK : ∀ k', k' < j - (i + TRACE_START.length) →
        ¬ TRACE_END <+: (s.drop (i + TRACE_START.length)).drop k' := by
      intro k' hk' hp
      refine hEmin (i + TRACE_START.length + k') (by omega) (by omega) ?_
      unfold occursAt
      rw [← List.drop_drop]
      exact hp
    have hfE : findSub TRACE_END (s.drop (i + TRACE_START.length))
        = some (j - (i + TRACE_START.length)) :=
      findSub_of_first _ _ _ hEk hEminK
    simp only [extractReasoningTrace, hfS, hfE]
    have hdrop : (s.drop (i + TRACE_START.length)).drop
        (j - (i + TRACE_START.length) + TRACE_END.length)
          = s.drop (j + TRACE_END.length) := by
      rw [List.drop_drop]
      have heq : i + TRACE_START.length
          + (j - (i + TRACE_START.length) + TRACE_END.length)
            = j + TRACE_END.length := by omega
      rw [heq]
    rw [hdrop]

/-- Witness for C4: a marker-free string falls in the no-pair branch, and a
string with one marker pair (first start at index 1, first end at index 29)
falls in the pair branch. -/
theorem extractReasoningTrace_spec_witness :
    extractReasoningTrace "plain text".toList
      = (pyStrip "plain text".toList, Option.none) ∧
    extractReasoningTrace
        "Q===REASONING_TRACE_START===w===REASONING_TRACE_END===Z".toList
      = (pyStrip
          (("Q===REASONING_TRACE_START===w===REASONING_TRACE_END===Z".toList).take 1
            ++ ("Q===REASONING_TRACE_START===w===REASONING_TRACE_END===Z".toList).drop
              (29 + TRACE_END.length)),
         some (pyStrip
          ((("Q===REASONING_TRACE_START===w===REASONING_TRACE_END===Z".toList).drop
              (1 + TRACE_START.length)).take (29 - (1 + TRACE_START.length))))) :=
  ⟨(extractReasoningTrace_spec _).1 (by decide),
   (extractReasoningTrace_spec _).2 1 29 (by decide) (by decide) (by decide)
     (by decide) (by decide)⟩

/-- **C5 counterexample**: the extractor is not idempotent on its main-text
branch.  For this input the removal of the first marker pair splices the
surrounding text into a fresh marker pair, so a second application extracts
again instead of returning the main text unchanged. -/
theorem extractReasoningTrace_not_idempotent :
    extractReasoningTrace
        ((extractReasoningTrace
          "===REASONING_TRACE===REASONING_TRACE_START===r===REASONING_TRACE_END===_START===A===REASONING_TRACE_END===".toList).1)
      ≠ (((extractReasoningTrace
          "===REASONING_TRACE===REASONING_TRACE_START===r===REASONING_TRACE_END===_START===A===REASONING_TRACE_END===".toList).1),
         Option.none) := by decide

/-- **C5 (amended)**: the extractor is idempotent on the main text of its
no-reasoning branch: whenever `extract(text)` finds no reasoning and returns
main text `m`, `extract(m) = (m, none)`.  (When reasoning *is* extracted,
re-joining the text before and after the markers can splice together a fresh
marker pair, so the unrestricted claim fails.) -/
theorem extractReasoningTrace_idempotent_no_reasoning (s m : Str)
    (h : extractReasoningTrace s = (m, Option.none)) :
    extractReasoningTrace m = (m, Option.none) := by
  unfold extractReasoningTrace at h
  cases hfS : findSub TRACE_START s with
  | none =>
    simp only [hfS] at h
    injection h with h1 h2
    subst h1
    cases hf2 : findSub TRACE_START (pyStrip s) with
    | none => simp [extractReasoningTrace, hf2, pyStrip_idem]
    | some i' =>
      exfalso
      obtain ⟨hp, _⟩ := findSub_eq_some _ _ _ hf2
      obtain ⟨j, hj⟩ :=
        occursAt_mono_isInfix trace_start_ne_nil (pyStrip_isInfix s) hp
      exact (findSub_eq_none _ _).mp hfS j hj
  | some i =>
    simp only [hfS] at h
    cases hfE : findSub TRACE_END (s.drop (i + TRACE_START.length)) with
    | some k =>
      simp only [hfE] at h
      exact absurd h (by simp)
    | none =>
      simp only [hfE] at h
      injection h with h1 h2
      subst h1
      obtain ⟨hSi, hSmin⟩ := findSub_eq_some _ _ _ hfS
      cases hf2 : findSub TRACE_START (pyStrip s) with
      | none => simp [extractReasoningTrace, hf2, pyStrip_idem]
      | some i' =>
        cases hg2 : findSub TRACE_END
            ((pyStrip s).drop (i' + TRACE_START.length)) with
        | none => simp [extractReasoningTrace, hf2, hg2, pyStrip_idem]
        | some k' =>
          exfalso
          obtain ⟨a, b, hab⟩ := pyStrip_isInfix s
          obtain ⟨hpS, _⟩ := findSub_eq_some _ _ _ hf2
          obtain ⟨hpE, _⟩ := findSub_eq_some _ _ _ hg2
          have hE' : occursAt TRACE_END (pyStrip s)
              (i' + TRACE_START.length + k') := by
            unfold occursAt
            rw [← List.drop_drop]
            exact hpE
          have hSs : occursAt TRACE_START s (a.length + i') :=
            hab ▸ occursAt_append a b trace_start_ne_nil hpS
          have hEs : occursAt TRACE_END s
              (a.length + (i' + TRACE_START.length + k')) :=
            hab ▸ occursAt_append a b trace_end_ne_nil hE'
          have hile : i ≤ a.length + i' := by
            by_contra hgt
            push_neg at hgt
            exact hSmin _ hgt hSs
          have hcontra : TRACE_END <+: (s.drop (i + TRACE_START.length)).drop
              (a.length + (i' + TRACE_START.length + k')
                - (i + TRACE_START.length)) := by
            rw [List.drop_drop]
            have heq : i + TRACE_START.length
                + (a.length + (i' + TRACE_START.length + k')
                  - (i + TRACE_START.length))
                = a.length + (i' + TRACE_START.length + k') := by omega
            rw [heq]
            exact hEs
          exact (findSub_eq_none _ _).mp hfE _ hcontra

/-- Witness for the amended C5: `extract` on `"  xy  "` finds no reasoning
and returns `"xy"`, on which a second application is the identity. -/
theorem extractReasoningTrace_idempotent_witness :
    extractReasoningTrace "  xy  ".toList = ("xy".toList, Option.none) ∧
    extractReasoningTrace "xy".toList = ("xy".toList, Option.none) :=
  ⟨by decide,
   extractReasoningTrace_idempotent_no_reasoning "  xy  ".toList "xy".toList
     (by decide)⟩

/-! ## Lemmas: the shape of one `record` call -/

theorem record_envelope (st : ALoggerState) (surface agent : Str)
    (event : List (Str × PyVal)) (level : Str) (tid sid : Option Nat)
    (io : Option Str) (st' : ALoggerState) (e : Envelope)
    (hrec : record st surface agent event level tid sid io = (st', e)) :
    e.surface = surface ∧ e.agent = agent ∧ e.level = level ∧
      e.event = event := by
  unfold record at hrec
  injection hrec with h1 h2
  subst h1
  subst h2
  simp

theorem op_str_ne_cog : ¬(("operational".toList : Str) = "cognitive".toList) := by
  decide

theorem op_str_ne_ctx : ¬(("operational".toList : Str) = "contextual".toList) := by
  decide

theorem cog_str_ne_op : ¬(("cognitive".toList : Str) = "operational".toList) := by
  decide

theorem cog_str_ne_ctx : ¬(("cognitive".toList : Str) = "contextual".toList) := by
  decide

theorem ctx_str_ne_op : ¬(("contextual".toList : Str) = "operational".toList) := by
  decide

theorem ctx_str_ne_cog : ¬(("contextual".toList : Str) = "cognitive".toList) := by
  decide

theorem allocIds_operational (st : ALoggerState) (tid sid : Option Nat) :
    (allocIds st tid sid).1.operational_file = st.operational_file := by
  unfold allocIds
  cases tid <;> cases sid <;> cases hc : st.current_trace_id <;> simp

theorem allocIds_cognitive (st : ALoggerState) (tid sid : Option Nat) :
    (allocIds st tid sid).1.cognitive_file = st.cognitive_file := by
  unfold allocIds
  cases tid <;> cases sid <;> cases hc : st.current_trace_id <;> simp

theorem allocIds_contextual (st : ALoggerState) (tid sid : Option Nat) :
    (allocIds st tid sid).1.contextual_file = st.contextual_file := by
  unfold allocIds
  cases tid <;> cases sid <;> cases hc : st.current_trace_id <;> simp

theorem allocIds_console (st : ALoggerState) (tid sid : Option Nat) :
    (allocIds st tid sid).1.console = st.console := by
  unfold allocIds
  cases tid <;> cases sid <;> cases hc : st.current_trace_id <;> simp

theorem allocIds_current (st : ALoggerState) (tid sid : Option Nat) :
    (allocIds st tid sid).1.current_trace_id
      = (match tid with
         | some _ => st.current_trace_id
         | Option.none => some (st.current_trace_id.getD st.next_uuid)) := by
  unfold allocIds
  cases tid <;> cases sid <;> cases hc : st.current_trace_id <;> simp [hc]

theorem allocIds_tid (st : ALoggerState) (tid sid : Option Nat) :
    (allocIds st tid sid).2.1
      = (match tid with
         | some t => t
         | Option.none => st.current_trace_id.getD st.next_uuid) := by
  unfold allocIds
  cases tid <;> cases sid <;> cases hc : st.current_trace_id <;> simp [hc]

theorem allocIds_next (st : ALoggerState) (tid sid : Option Nat) :
    (allocIds st tid sid).1.next_uuid
      = st.next_uuid
        + (match tid, st.current_trace_id with
           | Option.none, Option.none => 1
           | _, _ => 0)
        + (match sid with | Option.none => 1 | some _ => 0) := by
  unfold allocIds
  cases tid <;> cases sid <;> cases hc : st.current_trace_id <;> simp [hc]

theorem routeWrite_ok_operational (st : ALoggerState) (surface : Str)
    (entry : Envelope) :
    (routeWrite st surface entry Option.none).operational_file
      = st.operational_file
        ++ (if surface = "cognitive".toList ∨ surface = "contextual".toList
            then [] else [entry]) := by
  unfold routeWrite writeToFile
  by_cases h1 : surface = "operational".toList
  · subst h1
    simp [op_str_ne_cog, op_str_ne_ctx]
  · by_cases h2 : surface = "cognitive".toList
    · subst h2
      simp [cog_str_ne_op]
    · by_cases h3 : surface = "contextual".toList
      · subst h3
        cases hcf : st.contextual_file <;>
          simp [ctx_str_ne_op, ctx_str_ne_cog, hcf]
      · simp only [if_neg h1, if_neg h2, if_neg h3,
          if_neg (not_or.mpr ⟨h2, h3⟩)]

theorem routeWrite_ok_cognitive (st : ALoggerState) (surface : Str)
    (entry : Envelope) :
    (routeWrite st surface entry Option.none).cognitive_file
      = st.cognitive_file
        ++ (if surface = "cognitive".toList then [entry] else []) := by
  unfold routeWrite writeToFile
  by_cases h1 : surface = "operational".toList
  · subst h1
    simp [op_str_ne_cog]
  · by_cases h2 : surface = "cognitive".toList
    · subst h2
      simp [cog_str_ne_op]
    · by_cases h3 : surface = "contextual".toList
      · subst h3
        cases hcf : st.contextual_file <;>
          simp [ctx_str_ne_op, ctx_str_ne_cog, hcf]
      · simp only [if_neg h1, if_neg h2, if_neg h3]
        simp

theorem routeWrite_ok_contextual (st : ALoggerState) (surface : Str)
    (entry : Envelope) :
    (routeWrite st surface entry Option.none).contextual_file
      = (if surface = "contextual".toList
         then st.contextual_file.map (· ++ [entry])
         else st.contextual_file) := by
  unfold routeWrite writeToFile
  by_cases h1 : surface = "operational".toList
  · subst h1
    simp [op_str_ne_ctx]
  · by_cases h2 : surface = "cognitive".toList
    · subst h2
      simp [cog_str_ne_op, cog_str_ne_ctx]
    · by_cases h3 : surface = "contextual".toList
      · subst h3
        cases hcf : st.contextual_file <;>
          simp [ctx_str_ne_op, ctx_str_ne_cog, hcf]
      · simp only [if_neg h1, if_neg h2, if_neg h3]

theorem routeWrite_ok_console (st : ALoggerState) (surface : Str)
    (entry : Envelope) :
    (routeWrite st surface entry Option.none).console = st.console := by
  unfold routeWrite writeToFile
  by_cases h1 : surface = "operational".toList
  · subst h1
    simp
  · by_cases h2 : surface = "cognitive".toList
    · subst h2
      simp [cog_str_ne_op]
    · by_cases h3 : surface = "contextual".toList
      · subst h3
        cases hcf : st.contextual_file <;>
          simp [ctx_str_ne_op, ctx_str_ne_cog, hcf]
      · simp only [if_neg h1, if_neg h2, if_neg h3]

theorem routeWrite_current (st : ALoggerState) (surface : Str)
    (entry : Envelope) (io : Option Str) :
    (routeWrite st surface entry io).current_trace_id
      = st.current_trace_id := by
  unfold routeWrite writeToFile
  cases io <;>
    (by_cases h1 : surface = "operational".toList
     · subst h1
       simp
     · by_cases h2 : surface = "cognitive".toList
       · subst h2
         simp [cog_str_ne_op]
       · by_cases h3 : surface = "contextual".toList
         · subst h3
           cases hcf : st.contextual_file <;>
             simp [ctx_str_ne_op, ctx_str_ne_cog, hcf]
         · simp only [if_neg h1, if_neg h2, if_neg h3])

theorem routeWrite_next (st : ALoggerState) (surface : Str)
    (entry : Envelope) (io : Option Str) :
    (routeWrite st surface entry io).next_uuid = st.next_uuid := by
  unfold routeWrite writeToFile
  cases io <;>
    (by_cases h1 : surface = "operational".toList
     · subst h1
       simp
     · by_cases h2 : surface = "cognitive".toList
       · subst h2
         simp [cog_str_ne_op]
       · by_cases h3 : surface = "contextual".toList
         · subst h3
           cases hcf : st.contextual_file <;>
             simp [ctx_str_ne_op, ctx_str_ne_cog, hcf]
         · simp only [if_neg h1, if_neg h2, if_neg h3])

theorem routeWrite_fail_operational (st : ALoggerState) (surface : Str)
    (entry : Envelope) (e : Str) :
    (routeWrite st surface entry (some e)).operational_file
      = st.operational_file := by
  unfold routeWrite writeToFile
  by_cases h1 : surface = "operational".toList
  · subst h1
    simp
  · by_cases h2 : surface = "cognitive".toList
    · subst h2
      simp [cog_str_ne_op]
    · by_cases h3 : surface = "contextual".toList
      · subst h3
        cases hcf : st.contextual_file <;>
          simp [ctx_str_ne_op, ctx_str_ne_cog, hcf]
      · simp only [if_neg h1, if_neg h2, if_neg h3]

theorem routeWrite_fail_cognitive (st : ALoggerState) (surface : Str)
    (entry : Envelope) (e : Str) :
    (routeWrite st surface entry (some e)).cognitive_file
      = st.cognitive_file := by
  unfold routeWrite writeToFile
  by_cases h1 : surface = "operational".toList
  · subst h1
    simp
  · by_cases h2 : surface = "cognitive".toList
    · subst h2
      simp [cog_str_ne_op]
    · by_cases h3 : surface = "contextual".toList
      · subst h3
        cases hcf : st.contextual_file <;>
          simp [ctx_str_ne_op, ctx_str_ne_cog, hcf]
      · simp only [if_neg h1, if_neg h2, if_neg h3]

theorem routeWrite_fail_contextual (st : ALoggerState) (surface : Str)
    (entry : Envelope) (e : Str) :
    (routeWrite st surface entry (some e)).contextual_file
      = st.contextual_file := by
  unfold routeWrite writeToFile
  by_cases h1 : surface = "operational".toList
  · subst h1
    simp
  · by_cases h2 : surface = "cognitive".toList
    · subst h2
      simp [cog_str_ne_op]
    · by_cases h3 : surface = "contextual".toList
      · subst h3
        cases hcf : st.contextual_file <;>
          simp [ctx_str_ne_op, ctx_str_ne_cog, hcf]
      · simp only [if_neg h1, if_neg h2, if_neg h3]

theorem routeWrite_fail_console (st : ALoggerState) (surface : Str)
    (entry : Envelope) (e : Str) :
    (routeWrite st surface entry (some e)).console
      = st.console
        ++ (match sinkFor st surface with
            | some sink =>
              [(("ERROR".toList : Str), "Failed to write to ".toList
                  ++ writeToFile.sinkName sink ++ ':' :: ' ' :: e)]
            | Option.none => []) := by
  unfold routeWrite writeToFile sinkFor
  by_cases h1 : surface = "operational".toList
  · subst h1
    simp
  · by_cases h2 : surface = "cognitive".toList
    · subst h2
      simp [cog_str_ne_op]
    · by_cases h3 : surface = "contextual".toList
      · subst h3
        cases hcf : st.contextual_file <;>
          simp [ctx_str_ne_op, ctx_str_ne_cog, hcf]
      · simp only [if_neg h1, if_neg h2, if_neg h3]

theorem otelStage_operational (st : ALoggerState) (surface agent : Str)
    (event : List (Str × PyVal)) :
    (otelStage st surface agent event).operational_file
      = st.operational_file := by
  unfold otelStage
  split <;> rfl

theorem otelStage_cognitive (st : ALoggerState) (surface agent : Str)
    (event : List (Str × PyVal)) :
    (otelStage st surface agent event).cognitive_file = st.cognitive_file := by
  unfold otelStage
  split <;> rfl

theorem otelStage_contextual (st : ALoggerState) (surface agent : Str)
    (event : List (Str × PyVal)) :
    (otelStage st surface agent event).contextual_file
      = st.contextual_file := by
  unfold otelStage
  split <;> rfl

theorem otelStage_console (st : ALoggerState) (surface agent : Str)
    (event : List (Str × PyVal)) :
    (otelStage st surface agent event).console = st.console := by
  unfold otelStage
  split <;> rfl

theorem otelStage_current (st : ALoggerState) (surface agent : Str)
    (event : List (Str × PyVal)) :
    (otelStage st surface agent event).current_trace_id
      = st.current_trace_id := by
  unfold otelStage
  split <;> rfl

theorem otelStage_next (st : ALoggerState) (surface agent : Str)
    (event : List (Str × PyVal)) :
    (otelStage st surface agent event).next_uuid = st.next_uuid := by
  unfold otelStage
  split <;> rfl

theorem consoleStage_operational (st : ALoggerState) (surface agent : Str)
    (event : List (Str × PyVal)) :
    (consoleStage st surface agent event).operational_file
      = st.operational_file := by
  unfold consoleStage
  dsimp only
  repeat' split
  all_goals rfl

theorem consoleStage_cognitive (st : ALoggerState) (surface agent : Str)
    (event : List (Str × PyVal)) :
    (consoleStage st surface agent event).cognitive_file
      = st.cognitive_file := by
  unfold consoleStage
  dsimp only
  repeat' split
  all_goals rfl

theorem consoleStage_contextual (st : ALoggerState) (surface agent : Str)
    (event : List (Str × PyVal)) :
    (consoleStage st surface agent event).contextual_file
      = st.contextual_file := by
  unfold consoleStage
  dsimp only
  repeat' split
  all_goals rfl

theorem consoleStage_current (st : ALoggerState) (surface agent : Str)
    (event : List (Str × PyVal)) :
    (consoleStage st surface agent event).current_trace_id
      = st.current_trace_id := by
  unfold consoleStage
  dsimp only
  repeat' split
  all_goals rfl

theorem consoleStage_next (st : ALoggerState) (surface agent : Str)
    (event : List (Str × PyVal)) :
    (consoleStage st surface agent event).next_uuid = st.next_uuid := by
  unfold consoleStage
  dsimp only
  repeat' split
  all_goals rfl

theorem consoleStage_console_isPrefixLeft (st : ALoggerState)
    (surface agent : Str) (event : List (Str × PyVal)) :
    st.console <+: (consoleStage st surface agent event).console := by
  unfold consoleStage
  dsimp only
  repeat' split
  all_goals
    first
      | exact List.prefix_append st.console _
      | exact List.prefix_rfl

theorem consoleStage_of_ne (st : ALoggerState) (surface agent : Str)
    (event : List (Str × PyVal)) (h : surface ≠ "operational".toList) :
    consoleStage st surface agent event = st := by
  unfold consoleStage
  dsimp only
  have hb : (surface == "operational".toList) = false :=
    beq_eq_false_iff_ne.mpr h
  rw [hb, Bool.false_and]
  rfl

/-! ## Lemmas: one `record` call, composed from its stages -/

theorem record_operational_file (st : ALoggerState) (surface agent : Str)
    (event : List (Str × PyVal)) (level : Str) (tid sid : Option Nat) :
    ((record st surface agent event level tid sid Option.none).1).operational_file
      = st.operational_file
        ++ (if surface = "cognitive".toList ∨ surface = "contextual".toList
            then []
            else [(record st surface agent event level tid sid Option.none).2]) := by
  unfold record
  dsimp only
  rw [consoleStage_operational, otelStage_operational, routeWrite_ok_operational]
  rw [show ∀ s : ALoggerState, ∀ n c : Nat,
      ({ s with next_uuid := n, clock := c } : ALoggerState).operational_file
        = s.operational_file from fun _ _ _ => rfl]
  rw [allocIds_operational]

theorem record_cognitive_file (st : ALoggerState) (surface agent : Str)
    (event : List (Str × PyVal)) (level : Str) (tid sid : Option Nat) :
    ((record st surface agent event level tid sid Option.none).1).cognitive_file
      = st.cognitive_file
        ++ (if surface = "cognitive".toList
            then [(record st surface agent event level tid sid Option.none).2]
            else []) := by
  unfold record
  dsimp only
  rw [consoleStage_cognitive, otelStage_cognitive, routeWrite_ok_cognitive]
  rw [show ∀ s : ALoggerState, ∀ n c : Nat,
      ({ s with next_uuid := n, clock := c } : ALoggerState).cognitive_file
        = s.cognitive_file from fun _ _ _ => rfl]
  rw [allocIds_cognitive]

theorem record_contextual_file (st : ALoggerState) (surface agent : Str)
    (event : List (Str × PyVal)) (level : Str) (tid sid : Option Nat) :
    ((record st surface agent event level tid sid Option.none).1).contextual_file
      = (if surface = "contextual".toList
         then st.contextual_file.map
            (· ++ [(record st surface agent event level tid sid Option.none).2])
         else st.contextual_file) := by
  unfold record
  dsimp only
  rw [consoleStage_contextual, otelStage_contextual, routeWrite_ok_contextual]
  rw [show ∀ s : ALoggerState, ∀ n c : Nat,
      ({ s with next_uuid := n, clock := c } : ALoggerState).contextual_file
        = s.contextual_file from fun _ _ _ => rfl]
  rw [allocIds_contextual]

theorem record_current (st : ALoggerState) (surface agent : Str)
    (event : List (Str × PyVal)) (level : Str) (tid sid : Option Nat)
    (io : Option Str) :
    ((record st surface agent event level tid sid io).1).current_trace_id
      = (match tid with
         | some _ => st.current_trace_id
         | Option.none => some (st.current_trace_id.getD st.next_uuid)) := by
  unfold record
  dsimp only
  rw [consoleStage_current, otelStage_current, routeWrite_current]
  rw [show ∀ s : ALoggerState, ∀ n c : Nat,
      ({ s with next_uuid := n, clock := c } : ALoggerState).current_trace_id
        = s.current_trace_id from fun _ _ _ => rfl]
  rw [allocIds_current]

theorem record_next (st : ALoggerState) (surface agent : Str)
    (event : List (Str × PyVal)) (level : Str) (tid sid : Option Nat)
    (io : Option Str) :
    ((record st surface agent event level tid sid io).1).next_uuid
      = st.next_uuid
        + (match tid, st.current_trace_id with
           | Option.none, Option.none => 1
           | _, _ => 0)
        + (match sid with | Option.none => 1 | some _ => 0) + 1 := by
  unfold record
  dsimp only
  rw [consoleStage_next, otelStage_next, routeWrite_next]
  rw [show ∀ s : ALoggerState, ∀ n c : Nat,
      ({ s with next_uuid := n, clock := c } : ALoggerState).next_uuid
        = n from fun _ _ _ => rfl]
  rw [allocIds_next]

theorem record_trace_id_of (st : ALoggerState) (surface agent : Str)
    (event : List (Str × PyVal)) (level : Str) (tid sid : Option Nat)
    (io : Option Str) :
    (record st surface agent event level tid sid io).2.trace_id
      = (match tid with
         | some t => t
         | Option.none => st.current_trace_id.getD st.next_uuid) := by
  unfold record
  dsimp only
  exact allocIds_tid st tid sid

theorem sinkFor_ctxEq {st st' : ALoggerState}
    (h : st.contextual_file = st'.contextual_file) (surface : Str) :
    sinkFor st surface = sinkFor st' surface := by
  unfold sinkFor
  rw [h]

theorem record_fail_files (st : ALoggerState) (surface agent : Str)
    (event : List (Str × PyVal)) (level : Str) (tid sid : Option Nat)
    (e : Str) :
    ((record st surface agent event level tid sid (some e)).1).operational_file
        = st.operational_file ∧
    ((record st surface agent event level tid sid (some e)).1).cognitive_file
        = st.cognitive_file ∧
    ((record st surface agent event level tid sid (some e)).1).contextual_file
        = st.contextual_file := by
  unfold record
  dsimp only
  refine ⟨?_, ?_, ?_⟩
  · rw [consoleStage_operational, otelStage_operational,
      routeWrite_fail_operational]
    exact allocIds_operational st tid sid
  · rw [consoleStage_cognitive, otelStage_cognitive, routeWrite_fail_cognitive]
    exact allocIds_cognitive st tid sid
  · rw [consoleStage_contextual, otelStage_contextual,
      routeWrite_fail_contextual]
    exact allocIds_contextual st tid sid

theorem record_fail_console (st : ALoggerState) (surface agent : Str)
    (event : List (Str × PyVal)) (level : Str) (tid sid : Option Nat)
    (e : Str) :
    st.console
        ++ (match sinkFor st surface with
            | some sink =>
              [(("ERROR".toList : Str), "Failed to write to ".toList
                  ++ writeToFile.sinkName sink ++ ':' :: ' ' :: e)]
            | Option.none => [])
      <+: ((record st surface agent event level tid sid (some e)).1).console := by
  unfold record
  dsimp only
  have h1 := consoleStage_console_isPrefixLeft
    (otelStage (routeWrite
      { (allocIds st tid sid).1 with
          next_uuid := (allocIds st tid sid).1.next_uuid + 1
          clock := (allocIds st tid sid).1.clock + 1 }
      surface
      { id := (allocIds st tid sid).1.next_uuid
        timestamp := (allocIds st tid sid).1.clock
        agent := agent
        surface := surface
        level := level
        trace_id := (allocIds st tid sid).2.1
        span_id := (allocIds st tid sid).2.2
        event := event }
      (some e)) surface agent event) surface agent event
  rw [otelStage_console, routeWrite_fail_console] at h1
  have hsink : sinkFor
      { (allocIds st tid sid).1 with
          next_uuid := (allocIds st tid sid).1.next_uuid + 1
          clock := (allocIds st tid sid).1.clock + 1 }
      surface = sinkFor st surface :=
    sinkFor_ctxEq (by rw [show ∀ s : ALoggerState, ∀ n c : Nat,
      ({ s with next_uuid := n, clock := c } : ALoggerState).contextual_file
        = s.contextual_file from fun _ _ _ => rfl, allocIds_contextual])
      surface
  rw [hsink] at h1
  rw [show ∀ s : ALoggerState, ∀ n c : Nat,
      ({ s with next_uuid := n, clock := c } : ALoggerState).console
        = s.console from fun _ _ _ => rfl, allocIds_console] at h1
  exact h1

theorem record_ok_console_of_ne (st : ALoggerState) (surface agent : Str)
    (event : List (Str × PyVal)) (level : Str) (tid sid : Option Nat)
    (h : surface ≠ "operational".toList) :
    ((record st surface agent event level tid sid Option.none).1).console
      = st.console := by
  unfold record
  dsimp only
  rw [consoleStage_of_ne _ _ _ _ h, otelStage_console, routeWrite_ok_console]
  exact allocIds_console st tid sid

theorem record_event_eq (st : ALoggerState) (surface agent : Str)
    (event : List (Str × PyVal)) (level : Str) (tid sid : Option Nat)
    (io : Option Str) :
    (record st surface agent event level tid sid io).2.event = event := rfl

theorem record_eventField (st : ALoggerState) (surface agent : Str)
    (event : List (Str × PyVal)) (level : Str) (tid sid : Option Nat)
    (io : Option Str) (k : Str) :
    eventField (record st surface agent event level tid sid io).2 k
      = (event.find? (fun kv => kv.1 = k)).map Prod.snd := by
  unfold eventField
  rw [record_event_eq]

theorem record_level_eq (st : ALoggerState) (surface agent : Str)
    (event : List (Str × PyVal)) (level : Str) (tid sid : Option Nat)
    (io : Option Str) :
    (record st surface agent event level tid sid io).2.level = level := rfl

theorem record_surface_eq (st : ALoggerState) (surface agent : Str)
    (event : List (Str × PyVal)) (level : Str) (tid sid : Option Nat)
    (io : Option Str) :
    (record st surface agent event level tid sid io).2.surface = surface := rfl

theorem op_not_cog_or_ctx :
    ¬(("operational".toList : Str) = "cognitive".toList
      ∨ ("operational".toList : Str) = "contextual".toList) := by
  decide

/-! ## The claims -/

/-- **C10**: a `record` call whose surface is none of `operational`,
`cognitive`, `contextual` is silently written to the operational sink: the
envelope is appended to the operational file (and read back by reads of the
operational surface), the other sinks and the console are untouched, and the
call completes normally — nothing is rejected, dropped, or raised. -/
theorem record_unknown_surface (st : ALoggerState) (surface agent : Str)
    (event : List (Str × PyVal)) (level : Str) (tid sid : Option Nat)
    (h1 : surface ≠ "operational".toList) (h2 : surface ≠ "cognitive".toList)
    (h3 : surface ≠ "contextual".toList) :
    ((record st surface agent event level tid sid Option.none).1).operational_file
      = st.operational_file
        ++ [(record st surface agent event level tid sid Option.none).2] ∧
    ((record st surface agent event level tid sid Option.none).1).cognitive_file
      = st.cognitive_file ∧
    ((record st surface agent event level tid sid Option.none).1).contextual_file
      = st.contextual_file ∧
    ((record st surface agent event level tid sid Option.none).1).console
      = st.console ∧
    get_logs (record st surface agent event level tid sid Option.none).1
        (some "operational".toList)
      = st.operational_file
        ++ [(record st surface agent event level tid sid Option.none).2] := by
  have hop : ((record st surface agent event level tid sid Option.none).1).operational_file
      = st.operational_file
        ++ [(record st surface agent event level tid sid Option.none).2] := by
    rw [record_operational_file, if_neg (not_or.mpr ⟨h2, h3⟩)]
  have hcg : ((record st surface agent event level tid sid Option.none).1).cognitive_file
      = st.cognitive_file := by
    rw [record_cognitive_file, if_neg h2]
    simp
  have hct : ((record st surface agent event level tid sid Option.none).1).contextual_file
      = st.contextual_file := by
    rw [record_contextual_file, if_neg h3]
  refine ⟨hop, hcg, hct, record_ok_console_of_ne _ _ _ _ _ _ _ h1, ?_⟩
  unfold get_logs
  rw [if_pos (Or.inr rfl), if_neg ?hc, if_neg ?hx]
  case hc =>
    rintro (h | h)
    · cases h
    · exact op_str_ne_cog (Option.some.inj h)
  case hx =>
    rintro (h | h)
    · cases h
    · exact op_str_ne_ctx (Option.some.inj h)
  rw [hop]
  simp

/-- Witness for C10: recording with the unknown surface `"custom"` on a
fresh logger appends to the operational file and raises nothing. -/
theorem record_unknown_surface_witness :
    ((record (initLogger false false true) "custom".toList "a".toList []
        "INFO".toList Option.none Option.none Option.none).1).operational_file
      = (initLogger false false true).operational_file
        ++ [(record (initLogger false false true) "custom".toList "a".toList []
              "INFO".toList Option.none Option.none Option.none).2] ∧
    ((record (initLogger false false true) "custom".toList "a".toList []
        "INFO".toList Option.none Option.none Option.none).1).cognitive_file
      = (initLogger false false true).cognitive_file ∧
    ((record (initLogger false false true) "custom".toList "a".toList []
        "INFO".toList Option.none Option.none Option.none).1).contextual_file
      = (initLogger false false true).contextual_file ∧
    ((record (initLogger false false true) "custom".toList "a".toList []
        "INFO".toList Option.none Option.none Option.none).1).console
      = (initLogger false false true).console ∧
    get_logs (record (initLogger false false true) "custom".toList "a".toList []
        "INFO".toList Option.none Option.none Option.none).1
        (some "operational".toList)
      = (initLogger false false true).operational_file
        ++ [(record (initLogger false false true) "custom".toList "a".toList []
              "INFO".toList Option.none Option.none Option.none).2] :=
  record_unknown_surface (initLogger false false true) "custom".toList
    "a".toList [] "INFO".toList Option.none Option.none
    (by decide) (by decide) (by decide)

/-- **C7 counterexample**: a failing sink append is logged through
`console_logger.error`, i.e. at ERROR severity — the console gains exactly
one ERROR entry and no WARNING entry, so "logged at WARNING level" is false
on the code. -/
theorem record_write_failure_not_warning :
    (((record (initLogger false false true) "operational".toList "a".toList []
        "INFO".toList Option.none Option.none (some "disk full".toList)).1).console
      = [(("ERROR".toList : Str),
          "Failed to write to operational.jsonl: disk full".toList)]) ∧
    ∀ kv ∈ ((record (initLogger false false true) "operational".toList
        "a".toList [] "INFO".toList Option.none Option.none
        (some "disk full".toList)).1).console,
      kv.1 ≠ "WARNING".toList := by
  decide

/-- **C7 (amended)**: a sink append that raises an I/O error is caught: the
envelope is dropped without retry (no sink changes), the failure is logged
to the console logger at **ERROR** severity (the code uses
`console_logger.error`, not WARNING as the spec says), and `record` returns
normally — the model's `record` is a total function, so no exception
reaches the caller of the instrumented method. -/
theorem record_write_failure_spec (st : ALoggerState) (surface agent : Str)
    (event : List (Str × PyVal)) (level : Str) (tid sid : Option Nat)
    (e : Str) (sink : Sink) (hs : sinkFor st surface = some sink) :
    ((record st surface agent event level tid sid (some e)).1).operational_file
        = st.operational_file ∧
    ((record st surface agent event level tid sid (some e)).1).cognitive_file
        = st.cognitive_file ∧
    ((record st surface agent event level tid sid (some e)).1).contextual_file
        = st.contextual_file ∧
    (st.console
        ++ [(("ERROR".toList : Str), "Failed to write to ".toList
              ++ writeToFile.sinkName sink ++ ':' :: ' ' :: e)])
      <+: ((record st surface agent event level tid sid (some e)).1).console := by
  obtain ⟨f1, f2, f3⟩ := record_fail_files st surface agent event level tid sid e
  have hc := record_fail_console st surface agent event level tid sid e
  rw [hs] at hc
  exact ⟨f1, f2, f3, hc⟩

/-- Witness for the amended C7: a failing append of an operational envelope
on a fresh logger leaves all sinks empty and logs one ERROR console line. -/
theorem record_write_failure_spec_witness :
    sinkFor (initLogger false false true) "operational".toList
        = some Sink.operational ∧
    (((record (initLogger false false true) "operational".toList "b".toList []
        "INFO".toList Option.none Option.none (some "boom".toList)).1).operational_file
        = (initLogger false false true).operational_file ∧
    ((record (initLogger false false true) "operational".toList "b".toList []
        "INFO".toList Option.none Option.none (some "boom".toList)).1).cognitive_file
        = (initLogger false false true).cognitive_file ∧
    ((record (initLogger false false true) "operational".toList "b".toList []
        "INFO".toList Option.none Option.none (some "boom".toList)).1).contextual_file
        = (initLogger false false true).contextual_file ∧
    ((initLogger false false true).console
        ++ [(("ERROR".toList : Str), "Failed to write to ".toList
              ++ writeToFile.sinkName Sink.operational ++ ':' :: ' ' :: "boom".toList)])
      <+: ((record (initLogger false false true) "operational".toList "b".toList
          [] "INFO".toList Option.none Option.none (some "boom".toList)).1).console) :=
  ⟨by decide,
   record_write_failure_spec (initLogger false false true) "operational".toList
     "b".toList [] "INFO".toList Option.none Option.none "boom".toList
     Sink.operational (by decide)⟩

/-- **C6**: trace-identifier management.  (1) On the first `record` call
after construction or reset (no retained id) with no explicit `trace_id`, a
fresh identifier — the next value of the uuid source — is used and retained;
(2) two consecutive such calls share one `trace_id`; (3) an explicit
`trace_id` is used for that envelope only and leaves the retained id
unchanged; (4) after an explicit reset (spec-modelled `resetTrace`) the
newly allocated id differs from the previously retained one; (5) `record`
maintains the invariant that the retained id is below the uuid source, which
justifies (4)'s hypothesis for every reachable state. -/
theorem trace_context_spec (st : ALoggerState) (surface₁ surface₂ : Str)
    (agent₁ agent₂ : Str) (ev₁ ev₂ : List (Str × PyVal)) (lv₁ lv₂ : Str)
    (sid₁ sid₂ : Option Nat) (io₁ io₂ : Option Str) :
    (st.current_trace_id = Option.none →
      (record st surface₁ agent₁ ev₁ lv₁ Option.none sid₁ io₁).2.trace_id
          = st.next_uuid ∧
      ((record st surface₁ agent₁ ev₁ lv₁ Option.none sid₁ io₁).1).current_trace_id
          = some st.next_uuid) ∧
    ((record ((record st surface₁ agent₁ ev₁ lv₁ Option.none sid₁ io₁).1)
        surface₂ agent₂ ev₂ lv₂ Option.none sid₂ io₂).2.trace_id
      = (record st surface₁ agent₁ ev₁ lv₁ Option.none sid₁ io₁).2.trace_id) ∧
    (∀ t : Nat,
      (record st surface₁ agent₁ ev₁ lv₁ (some t) sid₁ io₁).2.trace_id = t ∧
      ((record st surface₁ agent₁ ev₁ lv₁ (some t) sid₁ io₁).1).current_trace_id
        = st.current_trace_id) ∧
    (∀ t : Nat, st.current_trace_id = some t → t < st.next_uuid →
      (record (resetTrace st) surface₁ agent₁ ev₁ lv₁ Option.none sid₁
          io₁).2.trace_id ≠ t) ∧
    (∀ tid : Option Nat,
      (∀ u, st.current_trace_id = some u → u < st.next_uuid) →
      ∀ u', ((record st surface₁ agent₁ ev₁ lv₁ tid sid₁ io₁).1).current_trace_id
          = some u' →
        u' < ((record st surface₁ agent₁ ev₁ lv₁ tid sid₁ io₁).1).next_uuid) := by
  refine ⟨?_, ?_, ?_, ?_, ?_⟩
  · intro h
    rw [record_trace_id_of, record_current, h]
    exact ⟨rfl, rfl⟩
  · rw [record_trace_id_of, record_trace_id_of, record_current]
    cases hc : st.current_trace_id <;> simp
  · intro t
    rw [record_trace_id_of, record_current]
    exact ⟨rfl, rfl⟩
  · intro t hct hlt
    rw [record_trace_id_of]
    show (resetTrace st).current_trace_id.getD (resetTrace st).next_uuid ≠ t
    unfold resetTrace
    dsimp only [Option.getD]
    omega
  · intro tid hinv u' h'
    rw [record_current] at h'
    rw [record_next]
    cases tid with
    | some t0 =>
      dsimp only at h' ⊢
      have := hinv u' h'
      omega
    | none =>
      dsimp only at h' ⊢
      cases hc : st.current_trace_id with
      | some u =>
        rw [hc] at h'
        have hu := hinv u hc
        simp only [Option.getD] at h'
        cases h'
        omega
      | none =>
        rw [hc] at h'
        simp only [Option.getD] at h'
        cases h'
        omega

/-- Witness for C6 on a fresh logger: the first two no-trace-id records share
the retained id `0`; an explicit id `7` is used once without overwriting; and
after a reset the fresh id differs from `0`. -/
theorem trace_context_spec_witness :
    ((record (initLogger false false false) "operational".toList "a".toList []
        "INFO".toList Option.none Option.none Option.none).2.trace_id = 0 ∧
      ((record (initLogger false false false) "operational".toList "a".toList []
        "INFO".toList Option.none Option.none Option.none).1).current_trace_id
        = some 0) ∧
    ((record ((record (initLogger false false false) "operational".toList
        "a".toList [] "INFO".toList Option.none Option.none Option.none).1)
        "cognitive".toList "b".toList [] "INFO".toList Option.none Option.none
        Option.none).2.trace_id
      = (record (initLogger false false false) "operational".toList "a".toList
          [] "INFO".toList Option.none Option.none Option.none).2.trace_id) ∧
    ((record (initLogger false false false) "operational".toList "a".toList []
        "INFO".toList (some 7) Option.none Option.none).2.trace_id = 7 ∧
      ((record (initLogger false false false) "operational".toList "a".toList []
        "INFO".toList (some 7) Option.none Option.none).1).current_trace_id
        = (initLogger false false false).current_trace_id) ∧
    (record (resetTrace ((record (initLogger false false false)
        "operational".toList "a".toList [] "INFO".toList Option.none
        Option.none Option.none).1)) "operational".toList "a".toList []
        "INFO".toList Option.none Option.none Option.none).2.trace_id ≠ 0 :=
  have h₁ := trace_context_spec (initLogger false false false)
    "operational".toList "cognitive".toList "a".toList "b".toList [] []
    "INFO".toList "INFO".toList Option.none Option.none Option.none Option.none
  have h₂ := trace_context_spec
    ((record (initLogger false false false) "operational".toList "a".toList []
      "INFO".toList Option.none Option.none Option.none).1)
    "operational".toList "operational".toList "a".toList "a".toList [] []
    "INFO".toList "INFO".toList Option.none Option.none Option.none Option.none
  ⟨h₁.1 (by decide), h₁.2.1, h₁.2.2.1 7,
   h₂.2.2.2.1 0 (by decide) (by decide)⟩

/-- **C1**: when the wrapped method raises, the wrapper appends exactly two
envelopes to the operational file — one `start` event and one `error` event
at level ERROR whose `error` field carries `"{type}: {message}"` — with zero
`complete` events, and re-raises the identical exception, so the caller
observes the same type and message as without instrumentation. -/
theorem wrapper_exception_spec (st : ALoggerState) (agent_name method_name : Str)
    (args_count : Nat) (kwargs_keys : List Str) (excType excMsg : Str)
    (execTime : Nat) :
    ∃ e₁ e₂ : Envelope,
      ((loggedWrapper st agent_name method_name args_count kwargs_keys
          (.raises excType excMsg) execTime Option.none Option.none
          Option.none).1).operational_file
        = st.operational_file ++ [e₁, e₂] ∧
      [e₁, e₂].countP (statusIs "start".toList) = 1 ∧
      [e₁, e₂].countP (statusIs "complete".toList) = 0 ∧
      [e₁, e₂].countP (statusIs "error".toList) = 1 ∧
      e₂.level = "ERROR".toList ∧
      eventField e₂ "error".toList
        = some (.str (excType ++ ':' :: ' ' :: excMsg)) ∧
      ((loggedWrapper st agent_name method_name args_count kwargs_keys
          (.raises excType excMsg) execTime Option.none Option.none
          Option.none).1).cognitive_file = st.cognitive_file ∧
      (loggedWrapper st agent_name method_name args_count kwargs_keys
          (.raises excType excMsg) execTime Option.none Option.none
          Option.none).2
        = .raises excType excMsg := by
  unfold loggedWrapper loggedWrapper.errorPath record_operational
  dsimp only
  apply Exists.intro
  apply Exists.intro
  refine ⟨?_, ?_, ?_, ?_, ?_, ?_, ?_, ?_⟩
  · rw [record_operational_file]
    dsimp only
    rw [record_operational_file, if_neg op_not_cog_or_ctx,
      if_neg op_not_cog_or_ctx, List.append_assoc]
    rfl
  · rfl
  · rfl
  · rfl
  · rfl
  · rfl
  · rw [record_cognitive_file]
    dsimp only
    rw [record_cognitive_file, if_neg op_str_ne_cog, if_neg op_str_ne_cog]
    simp
  · rfl

/-- **C2 counterexample**: for the return value
`"A===REASONING_TRACE_START======REASONING_TRACE_END===B"` the marker pair
matches (the extractor finds main text `"AB"` and an empty reasoning), yet
the wrapper records no cognitive event and passes the original value through
unchanged, because `if reasoning:` is false for an empty string — so "for
every return value in which the pair matches, a cognitive event is recorded
and the main text is returned" is false as stated. -/
theorem wrapper_empty_reasoning_passthrough :
    extractReasoningTrace
        "A===REASONING_TRACE_START======REASONING_TRACE_END===B".toList
      = ("AB".toList, some ([] : Str)) ∧
    (loggedWrapper (initLogger false false false) "a".toList "m".toList 0 []
        (.value (.str
          "A===REASONING_TRACE_START======REASONING_TRACE_END===B".toList))
        0 Option.none Option.none Option.none).2
      = .value (.str
          "A===REASONING_TRACE_START======REASONING_TRACE_END===B".toList) ∧
    ((loggedWrapper (initLogger false false false) "a".toList "m".toList 0 []
        (.value (.str
          "A===REASONING_TRACE_START======REASONING_TRACE_END===B".toList))
        0 Option.none Option.none Option.none).1).cognitive_file = [] ∧
    ("A===REASONING_TRACE_START======REASONING_TRACE_END===B".toList : Str)
      ≠ "AB".toList :=
  ⟨by decide, rfl, rfl, by decide⟩

/-- **C2 (amended)**: when the wrapped method returns a string in which the
marker pair matches *with nonempty trimmed reasoning*, the wrapper records a
separate cognitive event whose thought is the extracted reasoning (subject
to `record_cognitive`'s 2000-character truncation) and whose goal is
`"Execute {method}"`, and returns the extracted main text; when extraction
finds no reasoning — no marker pair, or an empty trimmed reasoning — the
original return value is passed through untouched. -/
theorem wrapper_reasoning_spec (st : ALoggerState) (agent_name method_name : Str)
    (args_count : Nat) (kwargs_keys : List Str) (execTime : Nat) (s m r : Str)
    (hx : extractReasoningTrace s = (m, some r)) (hr : r ≠ []) :
    (loggedWrapper st agent_name method_name args_count kwargs_keys
        (.value (.str s)) execTime Option.none Option.none Option.none).2
      = .value (.str m) ∧
    (∃ e : Envelope,
      ((loggedWrapper st agent_name method_name args_count kwargs_keys
          (.value (.str s)) execTime Option.none Option.none
          Option.none).1).cognitive_file
        = st.cognitive_file ++ [e] ∧
      eventField e "thought".toList = some (.str (truncThought r)) ∧
      eventField e "goal".toList
        = some (.str ("Execute ".toList ++ method_name)) ∧
      eventField e "model".toList = some (.str "agent_method".toList)) ∧
    (∀ s' m' : Str, extractReasoningTrace s' = (m', Option.none) →
      (loggedWrapper st agent_name method_name args_count kwargs_keys
          (.value (.str s')) execTime Option.none Option.none Option.none).2
        = .value (.str s')) ∧
    (∀ s' m' : Str, extractReasoningTrace s' = (m', some ([] : Str)) →
      (loggedWrapper st agent_name method_name args_count kwargs_keys
          (.value (.str s')) execTime Option.none Option.none Option.none).2
        = .value (.str s')) := by
  have hre : r.isEmpty = false := by
    cases hh : r.isEmpty
    · rfl
    · exact absurd (List.isEmpty_iff.mp hh) hr
  refine ⟨?_, ?_, ?_, ?_⟩
  · unfold loggedWrapper
    dsimp only
    simp only [pyStr]
    rw [hx]
    dsimp only
    rw [hre]
    rfl
  · unfold loggedWrapper record_cognitive record_operational
    dsimp only
    simp only [pyStr]
    rw [hx]
    dsimp only
    rw [hre, Bool.not_false, if_pos rfl]
    apply Exists.intro
    refine ⟨?_, ?_, ?_, ?_⟩
    · rw [record_cognitive_file, if_pos rfl]
      rw [record_cognitive_file]
      dsimp only
      rw [record_cognitive_file, if_neg op_str_ne_cog, if_neg op_str_ne_cog]
      simp
      rfl
    · rfl
    · rfl
    · rfl
  · intro s' m' hx'
    unfold loggedWrapper
    dsimp only
    simp only [pyStr]
    rw [hx']
  · intro s' m' hx'
    unfold loggedWrapper
    dsimp only
    simp only [pyStr]
    rw [hx']
    rfl

/-- Witness for the amended C2, at the spec's own example: for return value
`"ANSWER===REASONING_TRACE_START===R===REASONING_TRACE_END==="` the caller
receives `"ANSWER"` and the recorded cognitive event's thought is `"R"`. -/
theorem wrapper_reasoning_spec_witness :
    (loggedWrapper (initLogger false false false) "a".toList "m".toList 0 []
        (.value (.str
          "ANSWER===REASONING_TRACE_START===R===REASONING_TRACE_END===".toList))
        0 Option.none Option.none Option.none).2
      = .value (.str "ANSWER".toList) ∧
    (∃ e : Envelope,
      ((loggedWrapper (initLogger false false false) "a".toList "m".toList 0 []
          (.value (.str
            "ANSWER===REASONING_TRACE_START===R===REASONING_TRACE_END===".toList))
          0 Option.none Option.none Option.none).1).cognitive_file
        = (initLogger false false false).cognitive_file ++ [e] ∧
      eventField e "thought".toList = some (.str "R".toList) ∧
      eventField e "goal".toList
        = some (.str ("Execute ".toList ++ "m".toList)) ∧
      eventField e "model".toList = some (.str "agent_method".toList)) :=
  have h := wrapper_reasoning_spec (initLogger false false false) "a".toList
    "m".toList 0 [] 0
    "ANSWER===REASONING_TRACE_START===R===REASONING_TRACE_END===".toList
    "ANSWER".toList "R".toList (by decide) (by decide)
  ⟨h.1, h.2.1⟩

/-- **C9**: with the logger initialized, instrumentation that finds zero
eligible methods is a no-op: for an explicit method list none of whose names
is present and callable on the target, and likewise for a target with no
public callable attribute, `instrument_agent` returns the identical target
unmodified instead of raising. -/
theorem instrument_agent_noop (agent : PyObj) (name : Str) :
    (∀ ms : List Str, (∀ m ∈ ms, agent.callableAttr m = false) →
      instrument_agent true agent name (some ms) = .ok agent) ∧
    ((∀ kv ∈ agent.attrs, kv.1.head? = some '_' ∨ kv.2 = PyAttr.plain) →
      instrument_agent true agent name Option.none = .ok agent) := by
  constructor
  · intro ms hms
    unfold instrument_agent
    dsimp only
    have hfil : ms.filter (fun m => agent.callableAttr m) = [] := by
      apply List.filter_eq_nil_iff.mpr
      intro m hm
      simp [hms m hm]
    rw [hfil]
    rfl
  · intro h
    unfold instrument_agent
    dsimp only
    have hfil : agent.attrs.filter
        (fun kv => kv.1.head? != some '_'
          && (match kv.2 with | .callable _ => true | .plain => false)) = [] := by
      apply List.filter_eq_nil_iff.mpr
      intro kv hkv
      rcases h kv hkv with h1 | h1
      · simp [h1]
      · simp [h1]
    rw [hfil]
    rfl

/-- Witness for C9: a target whose only attributes are a private callable
and a plain value is returned unchanged, both for an explicit list of
absent/non-callable names and for default discovery. -/
theorem instrument_agent_noop_witness :
    instrument_agent true
        ⟨[("_hidden".toList, PyAttr.callable false), ("data".toList, PyAttr.plain)]⟩
        "demo".toList (some ["missing".toList, "data".toList])
      = .ok ⟨[("_hidden".toList, PyAttr.callable false),
              ("data".toList, PyAttr.plain)]⟩ ∧
    instrument_agent true
        ⟨[("_hidden".toList, PyAttr.callable false), ("data".toList, PyAttr.plain)]⟩
        "demo".toList Option.none
      = .ok ⟨[("_hidden".toList, PyAttr.callable false),
              ("data".toList, PyAttr.plain)]⟩ :=
  ⟨(instrument_agent_noop
      ⟨[("_hidden".toList, PyAttr.callable false), ("data".toList, PyAttr.plain)]⟩
      "demo".toList).1 ["missing".toList, "data".toList] (by decide),
   (instrument_agent_noop
      ⟨[("_hidden".toList, PyAttr.callable false), ("data".toList, PyAttr.plain)]⟩
      "demo".toList).2 (by decide)⟩

theorem serializeAttr_key (k : Str) (v : PyVal) (p : Str × AttrVal)
    (h : serializeAttr k v = some p) : p.1 = k := by
  cases v with
  | none => cases h
  | str s => cases h; rfl
  | int n => cases h; rfl
  | float x => cases h; rfl
  | bool b => cases h; rfl
  | list es =>
    simp only [serializeAttr] at h
    repeat' split at h
    all_goals (cases h; rfl)
  | dict es =>
    simp only [serializeAttr] at h
    repeat' split at h
    all_goals (cases h; rfl)
  | obj t so ro =>
    simp only [serializeAttr] at h
    repeat' split at h
    all_goals (cases h; rfl)

theorem serializeAttr_total (k : Str) (v : PyVal) (hne : v ≠ .none) :
    ∃ p, serializeAttr k v = some p := by
  cases v with
  | none => exact absurd rfl hne
  | str s => exact ⟨_, rfl⟩
  | int n => exact ⟨_, rfl⟩
  | float x => exact ⟨_, rfl⟩
  | bool b => exact ⟨_, rfl⟩
  | list es =>
    simp only [serializeAttr]
    repeat' split
    all_goals exact ⟨_, rfl⟩
  | dict es =>
    simp only [serializeAttr]
    repeat' split
    all_goals exact ⟨_, rfl⟩
  | obj t so ro =>
    simp only [serializeAttr]
    repeat' split
    all_goals exact ⟨_, rfl⟩

/-- **C8**: with a tracer configured, when serializing one payload attribute
fails outright (its primary serialization and the `repr` fallback both
raise), that single attribute is replaced by the fixed error-marker string
naming the failing value's type, the span is still emitted under the name
`"{agent}.{surface}"`, and every non-null payload attribute is still present
on it — a serialization failure never drops the whole span. -/
theorem emit_span_serialization_spec (surface agent : Str)
    (event : List (Str × PyVal)) (k : Str) (v : PyVal)
    (hmem : (k, v) ∈ event) (hprim : primarySerialize v = Option.none)
    (hrepr : pyRepr v = Option.none) :
    ∃ span : Span, emitSpan true surface agent event = some span ∧
      span.name = agent ++ '.' :: surface ∧
      (k, AttrVal.str ("<error serializing value: ".toList
          ++ pyTypeName v ++ ['>'])) ∈ span.attributes ∧
      ∀ k' v', (k', v') ∈ event → v' ≠ PyVal.none →
        ∃ a, (k', a) ∈ span.attributes := by
  apply Exists.intro
  refine ⟨rfl, rfl, ?_, ?_⟩
  · have hser : serializeAttr k v
        = some (k, .str ("<error serializing value: ".toList
            ++ pyTypeName v ++ ['>'])) := by
      cases v with
      | none => simp [primarySerialize, pyStr, pyRepr] at hprim
      | bool b => cases b <;> simp [primarySerialize, pyStr, pyRepr] at hprim
      | int n => simp [primarySerialize, pyStr, pyRepr] at hprim
      | float x => simp [primarySerialize, pyStr, pyRepr] at hprim
      | str s => simp [primarySerialize, pyStr] at hprim
      | list es =>
        simp only [serializeAttr, primarySerialize] at hprim ⊢
        simp [hprim, hrepr, pyTypeName]
      | dict es =>
        simp only [serializeAttr, primarySerialize] at hprim ⊢
        simp [hprim, hrepr, pyTypeName]
      | obj t so ro =>
        simp only [serializeAttr, primarySerialize] at hprim ⊢
        simp [hprim, hrepr, pyTypeName]
    exact List.mem_cons_of_mem _ (List.mem_cons_of_mem _
      (List.mem_filterMap.mpr ⟨(k, v), hmem, hser⟩))
  · intro k' v' hmem' hne
    obtain ⟨p, hp⟩ := serializeAttr_total k' v' hne
    have hk := serializeAttr_key k' v' p hp
    have hpe : p = (k', p.2) := by rw [← hk]
    refine ⟨p.2, List.mem_cons_of_mem _ (List.mem_cons_of_mem _
      (List.mem_filterMap.mpr ⟨(k', v'), hmem', ?_⟩))⟩
    rw [hp, hpe]

/-- Witness for C8: an event with a healthy string attribute, an object value
whose `str()` and `repr()` both fail, and a skipped `None` attribute. -/
theorem emit_span_serialization_spec_witness :
    (("bad".toList, PyVal.obj "Widget".toList false false)
      ∈ ([("thought".toList, PyVal.str "T".toList),
          ("bad".toList, PyVal.obj "Widget".toList false false),
          ("confidence".toList, PyVal.none)] : List (Str × PyVal))) ∧
    (∃ span : Span,
      emitSpan true "cognitive".toList "agent1".toList
          [("thought".toList, PyVal.str "T".toList),
           ("bad".toList, PyVal.obj "Widget".toList false false),
           ("confidence".toList, PyVal.none)]
        = some span ∧
      span.name = "agent1".toList ++ '.' :: "cognitive".toList ∧
      ("bad".toList, AttrVal.str ("<error serializing value: ".toList
          ++ pyTypeName (PyVal.obj "Widget".toList false false) ++ ['>']))
        ∈ span.attributes ∧
      ∀ k' v', (k', v') ∈ ([("thought".toList, PyVal.str "T".toList),
          ("bad".toList, PyVal.obj "Widget".toList false false),
          ("confidence".toList, PyVal.none)] : List (Str × PyVal)) →
        v' ≠ PyVal.none → ∃ a, (k', a) ∈ span.attributes) :=
  ⟨List.Mem.tail _ (List.Mem.head _),
   emit_span_serialization_spec "cognitive".toList "agent1".toList
     [("thought".toList, PyVal.str "T".toList),
      ("bad".toList, PyVal.obj "Widget".toList false false),
      ("confidence".toList, PyVal.none)]
     "bad".toList (PyVal.obj "Widget".toList false false)
     (List.Mem.tail _ (List.Mem.head _)) rfl rfl⟩

theorem routedOperational_record (st : ALoggerState) (surface agent : Str)
    (event : List (Str × PyVal)) (level : Str) (tid sid : Option Nat)
    (io : Option Str) :
    routedOperational (record st surface agent event level tid sid io).2
      = (surface != "cognitive".toList && surface != "contextual".toList) := by
  unfold routedOperational
  rw [record_surface_eq]

theorem routedCognitive_record (st : ALoggerState) (surface agent : Str)
    (event : List (Str × PyVal)) (level : Str) (tid sid : Option Nat)
    (io : Option Str) :
    routedCognitive (record st surface agent event level tid sid io).2
      = (surface == "cognitive".toList) := by
  unfold routedCognitive
  rw [record_surface_eq]

theorem routedContextual_record (st : ALoggerState) (surface agent : Str)
    (event : List (Str × PyVal)) (level : Str) (tid sid : Option Nat)
    (io : Option Str) :
    routedContextual (record st surface agent event level tid sid io).2
      = (surface == "contextual".toList) := by
  unfold routedContextual
  rw [record_surface_eq]

theorem runRecords_files : ∀ (calls : List RecordCall) (st : ALoggerState),
    ((runRecords st calls).1).operational_file
      = st.operational_file
        ++ ((runRecords st calls).2).filter routedOperational ∧
    ((runRecords st calls).1).cognitive_file
      = st.cognitive_file ++ ((runRecords st calls).2).filter routedCognitive ∧
    ((runRecords st calls).1).contextual_file
      = st.contextual_file.map
          (· ++ ((runRecords st calls).2).filter routedContextual) := by
  intro calls
  induction calls with
  | nil =>
    intro st
    refine ⟨by simp [runRecords], by simp [runRecords], ?_⟩
    simp only [runRecords, List.filter_nil]
    cases st.contextual_file <;> simp
  | cons c cs ih =>
    intro st
    obtain ⟨ih1, ih2, ih3⟩ := ih ((record st c.surface c.agent c.event c.level
      c.trace_id c.span_id Option.none).1)
    simp only [runRecords]
    refine ⟨?_, ?_, ?_⟩
    · rw [ih1, record_operational_file, List.filter_cons,
        routedOperational_record]
      by_cases h2 : c.surface = "cognitive".toList
      · rw [if_pos (Or.inl h2)]
        rw [show (c.surface != "cognitive".toList
            && c.surface != "contextual".toList) = false by
          rw [h2]; simp]
        simp
      · by_cases h3 : c.surface = "contextual".toList
        · rw [if_pos (Or.inr h3)]
          rw [show (c.surface != "cognitive".toList
              && c.surface != "contextual".toList) = false by
            rw [h3]; simp]
          simp
        · rw [if_neg (not_or.mpr ⟨h2, h3⟩)]
          rw [show (c.surface != "cognitive".toList
              && c.surface != "contextual".toList) = true by
            simp only [Bool.and_eq_true, bne_iff_ne]
            exact ⟨h2, h3⟩]
          simp
    · rw [ih2, record_cognitive_file, List.filter_cons,
        routedCognitive_record]
      by_cases h2 : c.surface = "cognitive".toList
      · rw [if_pos h2]
        rw [show (c.surface == "cognitive".toList) = true by
          rw [h2]; simp]
        simp
      · rw [if_neg h2]
        rw [show (c.surface == "cognitive".toList) = false from
          beq_eq_false_iff_ne.mpr h2]
        simp
    · rw [ih3, record_contextual_file, List.filter_cons,
        routedContextual_record]
      by_cases h3 : c.surface = "contextual".toList
      · rw [if_pos h3]
        rw [show (c.surface == "contextual".toList) = true by
          rw [h3]; simp]
        cases st.contextual_file <;> simp
      · rw [if_neg h3]
        rw [show (c.surface == "contextual".toList) = false from
          beq_eq_false_iff_ne.mpr h3]
        simp

/-- **C3**: in a single-writer session — a fresh logger followed by any
sequence of `record` calls whose sink appends all succeed — the envelopes
read back by `get_logs` are exactly the envelopes written: per surface, the
read-back list equals the sub-sequence of written envelopes routed to that
sink, in append order, with no loss and no duplication; and a read of all
surfaces returns those lists concatenated in sink order. -/
theorem get_logs_session_exact (eo tr sc : Bool) (calls : List RecordCall) :
    get_logs (runRecords (initLogger eo tr sc) calls).1
        (some "operational".toList)
      = ((runRecords (initLogger eo tr sc) calls).2).filter routedOperational ∧
    get_logs (runRecords (initLogger eo tr sc) calls).1
        (some "cognitive".toList)
      = ((runRecords (initLogger eo tr sc) calls).2).filter routedCognitive ∧
    get_logs (runRecords (initLogger eo tr sc) calls).1
        (some "contextual".toList)
      = (if sc then
          ((runRecords (initLogger eo tr sc) calls).2).filter routedContextual
        else []) ∧
    get_logs (runRecords (initLogger eo tr sc) calls).1 Option.none
      = ((runRecords (initLogger eo tr sc) calls).2).filter routedOperational
        ++ ((runRecords (initLogger eo tr sc) calls).2).filter routedCognitive
        ++ (if sc then
            ((runRecords (initLogger eo tr sc) calls).2).filter routedContextual
          else []) := by
  obtain ⟨h1, h2, h3⟩ := runRecords_files calls (initLogger eo tr sc)
  have hop : ((runRecords (initLogger eo tr sc) calls).1).operational_file
      = ((runRecords (initLogger eo tr sc) calls).2).filter routedOperational := by
    rw [h1]
    rfl
  have hcg : ((runRecords (initLogger eo tr sc) calls).1).cognitive_file
      = ((runRecords (initLogger eo tr sc) calls).2).filter routedCognitive := by
    rw [h2]
    rfl
  have hct : ((runRecords (initLogger eo tr sc) calls).1).contextual_file.getD []
      = (if sc then
          ((runRecords (initLogger eo tr sc) calls).2).filter routedContextual
        else []) := by
    rw [h3]
    show ((if sc then some [] else Option.none).map _).getD [] = _
    cases sc <;> simp
  refine ⟨?_, ?_, ?_, ?_⟩
  · unfold get_logs
    rw [if_pos (Or.inr rfl)]
    rw [if_neg ?hc, if_neg ?hx]
    case hc =>
      rintro (h | h)
      · cases h
      · exact op_str_ne_cog (Option.some.inj h)
    case hx =>
      rintro (h | h)
      · cases h
      · exact op_str_ne_ctx (Option.some.inj h)
    rw [hop]
    simp
  · unfold get_logs
    rw [if_pos (Or.inr rfl)]
    rw [if_neg ?hc, if_neg ?hx]
    case hc =>
      rintro (h | h)
      · cases h
      · exact cog_str_ne_op (Option.some.inj h)
    case hx =>
      rintro (h | h)
      · cases h
      · exact cog_str_ne_ctx (Option.some.inj h)
    rw [hcg]
    simp
  · unfold get_logs
    rw [if_pos (Or.inr rfl)]
    rw [if_neg ?hc, if_neg ?hx]
    case hc =>
      rintro (h | h)
      · cases h
      · exact ctx_str_ne_op (Option.some.inj h)
    case hx =>
      rintro (h | h)
      · cases h
      · exact ctx_str_ne_cog (Option.some.inj h)
    rw [hct]
    simp
  · unfold get_logs
    rw [if_pos (Or.inl rfl), if_pos (Or.inl rfl), if_pos (Or.inl rfl)]
    rw [hop, hcg, hct]

end AgentTrace
